import Mathlib

/-!
# kindred: tenant control planes inside a host cluster

A shallow embedding of `pkg/tenant/tenant.go` (the two pod builders) and of
`cmd/kindred/tenant.go` (the `create`, `list` and `config` commands and the
kubeconfig secret builder), followed by the properties proved about them.

Conventions of the embedding.

* A Go `string` is a `String`, a Go `[]byte` is a `Bytes`, a Go `int` is an `Int`.
* A Go `map[string]T` is an association list `List (String × T)`; the map
  literals of the source have one key each.
* A Go struct is a structure with the same field names; an embedded struct
  (`ObjectMeta` in `Pod`) is a parent structure. Fields the source leaves
  unset take Go's zero value.
* `fmt.Sprintf` calls are written out as concatenations, the format string
  being quoted next to each.
* The cluster API, `clientcmd.Write`, `ctrl.GetConfig`, `client.New`, the
  random source and the tab writer's `Flush` are not code of this
  repository: they enter the commands as parameters.
-/

namespace Kindred

/-! ## Go primitives -/

/-- A Go byte slice. -/
abbrev Bytes := List UInt8

/-- Go `fmt.Sprint(i)` and the `%d` verb for an `int`: signed decimal. -/
def fmtInt (i : Int) : String := toString i

/-- Go conversion `int32(i)`: two's-complement wrap to 32 bits. -/
def toInt32 (i : Int) : Int := (i + 2 ^ 31) % 2 ^ 32 - 2 ^ 31

/-- Go conversion `int64(i)`: two's-complement wrap to 64 bits. -/
def toInt64 (i : Int) : Int := (i + 2 ^ 63) % 2 ^ 64 - 2 ^ 63

/-- Go `strings.HasPrefix(s, p)`. -/
def hasPrefix (s p : String) : Bool := p.data.isPrefixOf s.data

/-- Go map read `m[k]` on a `map[string]string`: the zero value when absent. -/
def mapGet (m : List (String × String)) (k : String) : String :=
  (m.lookup k).getD ""

/-- Go map read `m[k]` on a `map[string][]byte`: the nil slice when absent. -/
def mapGetBytes (m : List (String × Bytes)) (k : String) : Bytes :=
  (m.lookup k).getD []

/-- An error value returned by an external call. -/
inductive Error where
  | alreadyExists
  | notFound
  | other (msg : String)
deriving DecidableEq, Repr

/-! ## Kubernetes object model (`k8s.io/api/core/v1`, `metav1`, `intstr`) -/

/-- Go `metav1.ObjectMeta`, the fields the program sets or reads. -/
structure ObjectMeta where
  Name : String := ""
  Namespace : String := ""
  Labels : List (String × String) := []
deriving DecidableEq, Repr

/-- Go `types.NamespacedName`. -/
structure NamespacedName where
  Name : String
  Namespace : String
deriving DecidableEq, Repr

/-- Go `intstr.Type`. -/
inductive IntStrType where
  | Int
  | String
deriving DecidableEq, Repr

/-- Go `intstr.IntOrString`. -/
structure IntOrString where
  Type_ : IntStrType
  IntVal : Int
  StrVal : String := ""
deriving DecidableEq, Repr

/-- Go `intstr.FromInt(val)`: the value is stored as an `int32`. -/
def intstr_FromInt (val : Int) : IntOrString :=
  { Type_ := IntStrType.Int, IntVal := toInt32 val }

/-- Go `corev1.HTTPGetAction`. -/
structure HTTPGetAction where
  Host : String
  Path : String
  Port : IntOrString
  Scheme : String
deriving DecidableEq, Repr

/-- Go `corev1.Handler`. -/
structure Handler where
  HTTPGet : Option HTTPGetAction
deriving DecidableEq, Repr

/-- Go `corev1.Probe`; `Handler` is a named field here. -/
structure Probe where
  FailureThreshold : Int
  InitialDelaySeconds : Int
  PeriodSeconds : Int
  SuccessThreshold : Int
  TimeoutSeconds : Int
  Handler : Handler
deriving DecidableEq, Repr

/-- Go `corev1.VolumeMount`. -/
structure VolumeMount where
  MountPath : String
  Name : String
  ReadOnly : Bool
deriving DecidableEq, Repr

/-- Go `corev1.ResourceRequirements`: resource name to quantity text. -/
structure ResourceRequirements where
  Requests : List (String × String)
deriving DecidableEq, Repr

/-- Go `corev1.Container`. -/
structure Container where
  Name : String
  Image : String
  Command : List String
  ImagePullPolicy : String
  Resources : ResourceRequirements
  LivenessProbe : Option Probe
  TerminationMessagePath : String
  TerminationMessagePolicy : String
  VolumeMounts : List VolumeMount
deriving DecidableEq, Repr

/-- Go `corev1.Toleration`. -/
structure Toleration where
  Effect : String
  Operator : String
deriving DecidableEq, Repr

/-- Go `corev1.HostPathVolumeSource`. -/
structure HostPathVolumeSource where
  Path : String
  Type_ : Option String
deriving DecidableEq, Repr

/-- Go `corev1.KeyToPath`. -/
structure KeyToPath where
  Key : String
  Path : String
deriving DecidableEq, Repr

/-- Go `corev1.SecretVolumeSource`. -/
structure SecretVolumeSource where
  SecretName : String
  Items : List KeyToPath
deriving DecidableEq, Repr

/-- Go `corev1.VolumeSource`. -/
structure VolumeSource where
  HostPath : Option HostPathVolumeSource := none
  Secret : Option SecretVolumeSource := none
deriving DecidableEq, Repr

/-- Go `corev1.Volume`. -/
structure Volume where
  Name : String
  VolumeSource : VolumeSource
deriving DecidableEq, Repr

/-- Go `corev1.PodSpec`. -/
structure PodSpec where
  Containers : List Container := []
  DNSPolicy : String := ""
  EnableServiceLinks : Option Bool := none
  HostNetwork : Bool := false
  NodeName : String := ""
  Priority : Option Int := none
  PriorityClassName : String := ""
  RestartPolicy : String := ""
  SchedulerName : String := ""
  TerminationGracePeriodSeconds : Option Int := none
  Tolerations : List Toleration := []
  Volumes : List Volume := []
deriving DecidableEq, Repr

/-- Go `corev1.PodStatus`, the field the program reads. -/
structure PodStatus where
  HostIP : String := ""
deriving DecidableEq, Repr

/-- Go `corev1.Pod`. -/
structure Pod extends ObjectMeta where
  Spec : PodSpec := {}
  Status : PodStatus := {}
deriving DecidableEq, Repr

/-- Go `corev1.Namespace`. -/
structure Namespace extends ObjectMeta where
deriving DecidableEq, Repr

/-- Go `corev1.Secret`. -/
structure Secret extends ObjectMeta where
  Data : List (String × Bytes) := []
deriving DecidableEq, Repr

/-! ## Client configuration (`rest.Config`, `clientcmdapi.Config`) -/

/-- Go `rest.Config`, the fields of its embedded `TLSClientConfig` that the
program reads. -/
structure RestConfig where
  ServerName : String
  CAData : Bytes
  CertData : Bytes
  KeyData : Bytes
deriving DecidableEq, Repr

/-- Go `clientcmdapi.Cluster`. -/
structure Cluster where
  Server : String := ""
  CertificateAuthorityData : Bytes := []
deriving DecidableEq, Repr

/-- Go `clientcmdapi.Context`. -/
structure Context where
  Cluster : String := ""
  AuthInfo : String := ""
deriving DecidableEq, Repr

/-- Go `clientcmdapi.AuthInfo`. -/
structure AuthInfo where
  ClientCertificateData : Bytes := []
  ClientKeyData : Bytes := []
deriving DecidableEq, Repr

/-- Go `clientcmdapi.Config`. -/
structure Config where
  Clusters : List (String × Cluster) := []
  Contexts : List (String × Context) := []
  AuthInfos : List (String × AuthInfo) := []
  CurrentContext : String := ""
deriving DecidableEq, Repr

/-! ## `pkg/tenant/tenant.go` -/

/-- Go `toInt32Ptr`. -/
def toInt32Ptr (i : Int) : Option Int := some (toInt32 i)

/-- Go `toInt64Ptr`. -/
def toInt64Ptr (i : Int) : Option Int := some (toInt64 i)

/-- Go `toBoolPtr`. -/
def toBoolPtr (b : Bool) : Option Bool := some b

/-- Go `toStringPtr`. -/
def toStringPtr (s : String) : Option String := some s

/-- Go `toHostPathTypePtr`. -/
def toHostPathTypePtr (h : String) : Option String := some h

/-- Go constant `corev1.HostPathDirectoryOrCreate`. -/
def HostPathDirectoryOrCreate : String := "DirectoryOrCreate"

/-- Go constant `corev1.PullIfNotPresent`. -/
def PullIfNotPresent : String := "IfNotPresent"

/-- Go constant `corev1.URISchemeHTTPS`. -/
def URISchemeHTTPS : String := "HTTPS"

/-- Go constant `corev1.TerminationMessageReadFile`. -/
def TerminationMessageReadFile : String := "File"

/-- Go constant `corev1.DNSClusterFirst`. -/
def DNSClusterFirst : String := "ClusterFirst"

/-- Go constant `corev1.RestartPolicyAlways`. -/
def RestartPolicyAlways : String := "Always"

/-- Go constant `corev1.TaintEffectNoExecute`. -/
def TaintEffectNoExecute : String := "NoExecute"

/-- Go constant `corev1.TolerationOpExists`. -/
def TolerationOpExists : String := "Exists"

/-- Go constant `corev1.ResourceCPU`. -/
def ResourceCPU : String := "cpu"

/-- A host-path volume of type directory-or-create, as every such volume of
the two pod templates is written. -/
def hostPathVolume (name path : String) : Volume :=
  { Name := name
    VolumeSource :=
      { HostPath := some
          { Path := path
            Type_ := toHostPathTypePtr HostPathDirectoryOrCreate } } }

/-- Go `NewAPIServer`: a kube-apiserver instance configured against kind
defaults. -/
def NewAPIServer (identifier namespace_ : String) (securePort : Int) : Pod :=
  { Name := "tenant-kube-apiserver-" ++ identifier  -- "tenant-kube-apiserver-%s"
    Namespace := namespace_
    Labels := [("kindred.crds.dev/tenant-api-server", identifier)]
    Spec :=
      { Containers := [
          { Name := "kube-apiserver"
            Image := "k8s.gcr.io/kube-apiserver:v1.17.0"
            Command := [
              "kube-apiserver",
              "--advertise-address=172.17.0.2",
              "--allow-privileged=true",
              "--authorization-mode=Node,RBAC",
              "--client-ca-file=/etc/kubernetes/pki/ca.crt",
              "--enable-admission-plugins=NodeRestriction",
              "--enable-bootstrap-token-auth=true",
              "--etcd-cafile=/etc/kubernetes/pki/etcd/ca.crt",
              "--etcd-certfile=/etc/kubernetes/pki/apiserver-etcd-client.crt",
              "--etcd-keyfile=/etc/kubernetes/pki/apiserver-etcd-client.key",
              "--etcd-servers=https://127.0.0.1:2379",
              "--etcd-prefix=/tenant" ++ "-" ++ identifier ++ "/",  -- "%s-%s/"
              "--insecure-port=0",
              "--kubelet-client-certificate=/etc/kubernetes/pki/apiserver-kubelet-client.crt",
              "--kubelet-client-key=/etc/kubernetes/pki/apiserver-kubelet-client.key",
              "--kubelet-preferred-address-types=InternalIP,ExternalIP,Hostname",
              "--proxy-client-cert-file=/etc/kubernetes/pki/front-proxy-client.crt",
              "--proxy-client-key-file=/etc/kubernetes/pki/front-proxy-client.key",
              "--requestheader-allowed-names=front-proxy-client",
              "--requestheader-client-ca-file=/etc/kubernetes/pki/front-proxy-ca.crt",
              "--requestheader-extra-headers-prefix=X-Remote-Extra-",
              "--requestheader-group-headers=X-Remote-Group",
              "--requestheader-username-headers=X-Remote-User",
              "--secure-port" ++ "=" ++ fmtInt securePort,  -- "%s=%d"
              "--service-account-key-file=/etc/kubernetes/pki/sa.pub",
              "--service-cluster-ip-range=10.96.0.0/12",
              "--tls-cert-file=/etc/kubernetes/pki/apiserver.crt",
              "--tls-private-key-file=/etc/kubernetes/pki/apiserver.key" ]
            ImagePullPolicy := PullIfNotPresent
            Resources := { Requests := [(ResourceCPU, "250m")] }
            LivenessProbe := some
              { FailureThreshold := 8
                InitialDelaySeconds := 15
                PeriodSeconds := 10
                SuccessThreshold := 1
                TimeoutSeconds := 15
                Handler :=
                  { HTTPGet := some
                      { Host := "172.17.0.2"
                        Path := "/healthz"
                        Port := intstr_FromInt securePort  -- must match secure-port above
                        Scheme := URISchemeHTTPS } } }
            TerminationMessagePath := "/dev/termination-log"
            TerminationMessagePolicy := TerminationMessageReadFile
            VolumeMounts := [
              { MountPath := "/etc/ssl/certs", Name := "ca-certs", ReadOnly := true },
              { MountPath := "/etc/ca-certificates", Name := "etc-ca-certificates",
                ReadOnly := true },
              { MountPath := "/etc/kubernetes/pki", Name := "k8s-certs", ReadOnly := true },
              { MountPath := "/usr/local/share/ca-certificates",
                Name := "usr-local-share-ca-certificates", ReadOnly := true },
              { MountPath := "/usr/share/ca-certificates",
                Name := "usr-share-ca-certificates", ReadOnly := true } ] } ]
        DNSPolicy := DNSClusterFirst
        EnableServiceLinks := toBoolPtr true
        HostNetwork := true
        NodeName := "kind-control-plane"
        Priority := toInt32Ptr 2000000000
        PriorityClassName := "system-cluster-critical"
        RestartPolicy := RestartPolicyAlways
        SchedulerName := "default-scheduler"
        TerminationGracePeriodSeconds := toInt64Ptr 30
        Tolerations := [{ Effect := TaintEffectNoExecute, Operator := TolerationOpExists }]
        Volumes := [
          hostPathVolume "ca-certs" "/etc/ssl/certs",
          hostPathVolume "etc-ca-certificates" "/etc/ca-certificates",
          hostPathVolume "k8s-certs" "/etc/kubernetes/pki",
          hostPathVolume "usr-local-share-ca-certificates" "/usr/local/share/ca-certificates",
          hostPathVolume "usr-share-ca-certificates" "/usr/share/ca-certificates" ] } }

/-- Go `NewControllerManager`: a kube-controller-manager instance configured
against kind defaults. -/
def NewControllerManager (identifier namespace_ : String) (securePort : Int) : Pod :=
  { Name := "tenant-kube-controller-manager-" ++ identifier  -- "tenant-kube-controller-manager-%s"
    Namespace := namespace_
    Labels := [("kindred.crds.dev/tenant-controller-manager", identifier)]
    Spec :=
      { Containers := [
          { Name := "kube-controller-manager"
            Image := "k8s.gcr.io/kube-controller-manager:v1.17.0"
            Command := [
              "kube-controller-manager",
              "--allocate-node-cidrs=true",
              "--authentication-kubeconfig=/etc/kubernetes/tenant-controller-manager.conf",
              "--authorization-kubeconfig=/etc/kubernetes/tenant-controller-manager.conf",
              "--bind-address=127.0.0.1",
              "--secure-port" ++ "=" ++ fmtInt securePort,  -- "%s=%d"
              "--port=0",
              "--client-ca-file=/etc/kubernetes/pki/ca.crt",
              "--cluster-cidr=10.244.0.0/16",
              "--cluster-signing-cert-file=/etc/kubernetes/pki/ca.crt",
              "--cluster-signing-key-file=/etc/kubernetes/pki/ca.key",
              "--controllers=clusterrole-aggregation,garbagecollector,serviceaccount,serviceaccount-token,namespace",
              "--enable-hostpath-provisioner=true",
              "--kubeconfig=/etc/kubernetes/tenant-controller-manager.conf",
              "--leader-elect=true",
              "--node-cidr-mask-size=24",
              "--requestheader-client-ca-file=/etc/kubernetes/pki/front-proxy-ca.crt",
              "--root-ca-file=/etc/kubernetes/pki/ca.crt",
              "--service-account-private-key-file=/etc/kubernetes/pki/sa.key",
              "--service-cluster-ip-range=10.96.0.0/12",
              "--use-service-account-credentials=true" ]
            ImagePullPolicy := PullIfNotPresent
            Resources := { Requests := [(ResourceCPU, "200m")] }
            LivenessProbe := some
              { FailureThreshold := 8
                InitialDelaySeconds := 15
                PeriodSeconds := 10
                SuccessThreshold := 1
                TimeoutSeconds := 15
                Handler :=
                  { HTTPGet := some
                      { Host := "127.0.0.1"
                        Path := "/healthz"
                        Port := intstr_FromInt securePort  -- must match secure-port above
                        Scheme := URISchemeHTTPS } } }
            TerminationMessagePath := "/dev/termination-log"
            TerminationMessagePolicy := TerminationMessageReadFile
            VolumeMounts := [
              { MountPath := "/etc/ssl/certs", Name := "ca-certs", ReadOnly := true },
              { MountPath := "/etc/ca-certificates", Name := "etc-ca-certificates",
                ReadOnly := true },
              { MountPath := "/usr/libexec/kubernetes/kubelet-plugins/volume/exec",
                Name := "flexvolume-dir", ReadOnly := true },
              { MountPath := "/etc/kubernetes/pki", Name := "k8s-certs", ReadOnly := true },
              { MountPath := "/etc/kubernetes", Name := "kubeconfig", ReadOnly := true },
              { MountPath := "/usr/local/share/ca-certificates",
                Name := "usr-local-share-ca-certificates", ReadOnly := true },
              { MountPath := "/usr/share/ca-certificates",
                Name := "usr-share-ca-certificates", ReadOnly := true } ] } ]
        DNSPolicy := DNSClusterFirst
        EnableServiceLinks := toBoolPtr true
        HostNetwork := true
        NodeName := "kind-control-plane"
        Priority := toInt32Ptr 2000000000
        PriorityClassName := "system-cluster-critical"
        RestartPolicy := RestartPolicyAlways
        SchedulerName := "default-scheduler"
        TerminationGracePeriodSeconds := toInt64Ptr 30
        Tolerations := [{ Effect := TaintEffectNoExecute, Operator := TolerationOpExists }]
        Volumes := [
          hostPathVolume "ca-certs" "/etc/ssl/certs",
          hostPathVolume "etc-ca-certificates" "/etc/ca-certificates",
          hostPathVolume "flexvolume-dir" "/usr/libexec/kubernetes/kubelet-plugins/volume/exec",
          hostPathVolume "k8s-certs" "/etc/kubernetes/pki",
          { Name := "kubeconfig"
            VolumeSource :=
              { Secret := some
                  { SecretName := "tenant-kubeconfig" ++ "-" ++ identifier  -- "%s-%s"
                    Items := [{ Key := "kubeconfig", Path := "tenant-controller-manager.conf" }] } } },
          hostPathVolume "usr-local-share-ca-certificates" "/usr/local/share/ca-certificates",
          hostPathVolume "usr-share-ca-certificates" "/usr/share/ca-certificates" ] } }

/-! ## The outside world of `cmd/kindred/tenant.go` -/

/-- An object handed to or returned by the cluster API. -/
inductive Object where
  | ns (n : Namespace)
  | secret (s : Secret)
  | pod (p : Pod)
deriving DecidableEq, Repr

/-- The kinds of object the program deals with. -/
inductive Kind where
  | Namespace
  | Secret
  | Pod
deriving DecidableEq, Repr

/-- The verbs of controller-runtime's `client.Client`, as requests sent to
the cluster. For `Get` and `List` the kind is that of the Go value passed to
receive the result. -/
inductive Call where
  | Create (o : Object)
  | Get (kind : Kind) (key : NamespacedName)
  | List (kind : Kind) (hasLabels : List String)
  | Update (o : Object)
  | Patch (o : Object)
  | Delete (o : Object)
  | DeleteAllOf (kind : Kind)
deriving DecidableEq, Repr

/-- The part of controller-runtime's `client.Client` the program calls, over
an arbitrary cluster state `σ`: every call returns its result and the state
the cluster is left in. -/
structure Client (σ : Type) where
  Create : Object → σ → Option Error × σ
  GetPod : NamespacedName → σ → Except Error Pod × σ
  GetSecret : NamespacedName → σ → Except Error Secret × σ
  ListPods : List String → σ → Except Error (List Pod) × σ

/-- Everything a command obtains from outside the repository.
`Intn k n` is the value returned by the `k`-th call of `rand.Intn` in the
process, made with argument `n`; `Flush` is the result of the tab writer's
`Flush` on the text written to it. -/
structure Env (σ : Type) where
  GetConfig : Except Error RestConfig
  New : RestConfig → Except Error (Client σ)
  Write : Config → Except Error Bytes
  Intn : Nat → Int → Int
  Flush : List String → Option Error

/-- The contract of `rand.Intn`: for positive `n` a value in `[0, n)`. -/
def RandOK (Intn : Nat → Int → Int) : Prop :=
  ∀ k n, 0 < n → 0 ≤ Intn k n ∧ Intn k n < n

/-- A write on standard output: text, or bytes converted with `string(b)`. -/
inductive Output where
  | str (s : String)
  | raw (b : Bytes)
deriving DecidableEq, Repr

/-- What one run of a command does: the state the cluster is left in, the
requests sent to it in order, the direct writes on standard output in order,
the writes buffered in the tab writer in order, the value the command
panicked with, if it did, and the error with which cobra refused the argument
list without entering the command's `Run` function, if it did. -/
structure Run (σ : Type) where
  world : σ
  calls : List Call := []
  stdout : List Output := []
  tab : List String := []
  panic : Option Error := none
  argsError : Option String := none

/-! ## `cmd/kindred/tenant.go` -/

/-- Go constant `tenantAPIServerPrefix`. -/
def tenantAPIServerPrefix : String := "tenant-kube-apiserver"

/-- Go constant `tenantControllerManagerPrefix`. -/
def tenantControllerManagerPrefix : String := "tenant-kube-controller-manager"

/-- Go constant `tenantKubeconfigSecretPrefix`. -/
def tenantKubeconfigSecretPrefix : String := "tenant-kubeconfig"

/-- Go constant `tenantNamespacePrefix`. -/
def tenantNamespacePrefix : String := "kube-tenant"

/-- Go constant `defaultSysNamespace`. -/
def defaultSysNamespace : String := "kube-system"

/-- The local `kube` of Go `secretForTenantKubeConfig`: the kubeconfig
document that is serialised into the secret. -/
def secretForTenantKubeConfig.kube (cfg : RestConfig) (host : String) (port : Int) : Config :=
  { Clusters := [(cfg.ServerName,
      { Server := "https://" ++ host ++ ":" ++ fmtInt port  -- "https://%s:%d"
        CertificateAuthorityData := cfg.CAData })]
    Contexts := [(cfg.ServerName, { Cluster := cfg.ServerName })]
    AuthInfos := [(cfg.ServerName,
      { ClientCertificateData := cfg.CertData
        ClientKeyData := cfg.KeyData })]
    CurrentContext := cfg.ServerName }

/-- Go `secretForTenantKubeConfig`; `Write` is `clientcmd.Write`. -/
def secretForTenantKubeConfig (Write : Config → Except Error Bytes) (cfg : RestConfig)
    (host identifier namespace_ : String) (port : Int) : Except Error Secret :=
  match Write (secretForTenantKubeConfig.kube cfg host port) with
  | .error err => .error err
  | .ok b => .ok
    { Name := tenantKubeconfigSecretPrefix ++ "-" ++ identifier  -- "%s-%s"
      Namespace := namespace_
      Labels := [("kindred.crds.dev/tenant-api-server", identifier)]
      Data := [("kubeconfig", b)] }

/-- The local `identifier` of Go `createCmd`. -/
def createCmd.identifier (Intn : Nat → Int → Int) : String := fmtInt (Intn 0 50000)

/-- The local `serverPort` of Go `createCmd`. -/
def createCmd.serverPort (Intn : Nat → Int → Int) : Int := Intn 1 (8000 - 7000) + 7000

/-- The local `managerPort` of Go `createCmd`. -/
def createCmd.managerPort (Intn : Nat → Int → Int) : Int := Intn 2 (12000 - 11000) + 11000

/-- The local `tenantNS` of Go `createCmd`. -/
def createCmd.tenantNS (identifier : String) : Namespace :=
  { Name := tenantNamespacePrefix ++ "-" ++ identifier }  -- "%s-%s"

/-- The `Run` function of Go `createCmd`, started on cluster state `w`. -/
def createCmd {σ : Type} (env : Env σ) (w : σ) : Run σ :=
  let identifier := createCmd.identifier env.Intn
  let serverPort := createCmd.serverPort env.Intn
  let managerPort := createCmd.managerPort env.Intn
  match env.GetConfig with
  | .error err => { world := w, panic := some err }
  | .ok cfg =>
  match env.New cfg with
  | .error err => { world := w, panic := some err }
  | .ok c =>
  let tenantNS := createCmd.tenantNS identifier
  let out1 := [Output.str ("Creating tenant namespace: " ++ tenantNS.Name ++ "\n")]
  let calls1 := [Call.Create (.ns tenantNS)]
  match c.Create (.ns tenantNS) w with
  | (some err, w1) => { world := w1, calls := calls1, stdout := out1, panic := some err }
  | (none, w1) =>
  let calls2 := calls1 ++
    [Call.Get Kind.Pod { Name := "kube-apiserver-kind-control-plane", Namespace := defaultSysNamespace }]
  match c.GetPod { Name := "kube-apiserver-kind-control-plane", Namespace := defaultSysNamespace } w1 with
  | (.error err, w2) => { world := w2, calls := calls2, stdout := out1, panic := some err }
  | (.ok kubeAPI, w2) =>
  let out2 := out1 ++ [Output.str ("Creating tenant kubeconfig secret: " ++ tenantNS.Name ++ "/" ++
    tenantKubeconfigSecretPrefix ++ "-" ++ identifier ++ "\n")]
  match secretForTenantKubeConfig env.Write cfg kubeAPI.Status.HostIP identifier tenantNS.Name
      serverPort with
  | .error err => { world := w2, calls := calls2, stdout := out2, panic := some err }
  | .ok s =>
  let calls3 := calls2 ++ [Call.Create (.secret s)]
  match c.Create (.secret s) w2 with
  | (some err, w3) => { world := w3, calls := calls3, stdout := out2, panic := some err }
  | (none, w3) =>
  let out3 := out2 ++ [Output.str ("Creating tenant API server: " ++ tenantNS.Name ++ "/" ++
    tenantAPIServerPrefix ++ "-" ++ identifier ++ "\n")]
  let server := NewAPIServer identifier tenantNS.Name serverPort
  let calls4 := calls3 ++ [Call.Create (.pod server)]
  match c.Create (.pod server) w3 with
  | (some err, w4) => { world := w4, calls := calls4, stdout := out3, panic := some err }
  | (none, w4) =>
  let out4 := out3 ++ [Output.str ("Creating tenant controller manager: " ++ tenantNS.Name ++ "/" ++
    tenantAPIServerPrefix ++ "-" ++ identifier ++ "\n")]
  let controller := NewControllerManager identifier tenantNS.Name managerPort
  let calls5 := calls4 ++ [Call.Create (.pod controller)]
  match c.Create (.pod controller) w4 with
  | (some err, w5) => { world := w5, calls := calls5, stdout := out4, panic := some err }
  | (none, w5) =>
  { world := w5, calls := calls5,
    stdout := out4 ++ [Output.str ("Done! Run...\n\nkindred tenant config " ++ identifier ++
      "\n\n...to access your tenant cluster!\n")] }

/-- The header line `listCmd` writes to the tab writer. -/
def listCmd.header : String := "NAMESPACE\tAPI SERVER\tCONTROLLER MANAGER\tKUBECONFIG\n"

/-- The line `listCmd` writes to the tab writer for one listed pod `s`
(format `"%s\t%s\t%s\t%s\n"`). -/
def listCmd.row (s : Pod) : String :=
  let identifier := mapGet s.Labels "kindred.crds.dev/tenant-api-server"
  s.Namespace ++ "\t" ++ s.Name ++ "\t" ++
    ("tenant-kube-controller-manager" ++ "-" ++ identifier) ++ "\t" ++
    ("tenant-kubeconfig" ++ "-" ++ identifier) ++ "\n"

/-- The `Run` function of Go `listCmd`, started on cluster state `w`. -/
def listCmd {σ : Type} (env : Env σ) (w : σ) : Run σ :=
  match env.GetConfig with
  | .error err => { world := w, panic := some err }
  | .ok cfg =>
  match env.New cfg with
  | .error err => { world := w, panic := some err }
  | .ok c =>
  let calls := [Call.List Kind.Pod ["kindred.crds.dev/tenant-api-server"]]
  match c.ListPods ["kindred.crds.dev/tenant-api-server"] w with
  | (.error err, w1) => { world := w1, calls := calls, panic := some err }
  | (.ok items, w1) =>
  let out := if items.length = 0 then [Output.str "No tenant instances found.\n"] else []
  let tab0 := if items.length = 0 then [] else [listCmd.header]
  let tab := tab0 ++ items.map listCmd.row
  { world := w1, calls := calls, stdout := out, tab := tab, panic := env.Flush tab }

/-- Go `configCmd` on the argument list `args`, started on cluster state `w`.
With any number of arguments other than one, `cobra.ExactArgs(1)` returns the
error `accepts 1 arg(s), received N` and the `Run` function is not entered:
nothing is sent or printed and there is no panic. -/
def configCmd {σ : Type} (env : Env σ) (args : List String) (w : σ) : Run σ :=
  match args with
  | [identifier] =>
    match env.GetConfig with
    | .error err => { world := w, panic := some err }
    | .ok cfg =>
    match env.New cfg with
    | .error err => { world := w, panic := some err }
    | .ok c =>
    let secretName := tenantKubeconfigSecretPrefix ++ "-" ++ identifier  -- "%s-%s"
    let secretNS := tenantNamespacePrefix ++ "-" ++ identifier  -- "%s-%s"
    let calls := [Call.Get Kind.Secret { Name := secretName, Namespace := secretNS }]
    match c.GetSecret { Name := secretName, Namespace := secretNS } w with
    | (.error err, w1) => { world := w1, calls := calls, panic := some err }
    | (.ok tenantKubeconfig, w1) =>
      { world := w1, calls := calls,
        stdout := [Output.raw (mapGetBytes tenantKubeconfig.Data "kubeconfig")] }
  | _ =>
    { world := w,
      argsError := some ("accepts " ++ toString 1 ++ " arg(s), received " ++
        toString args.length) }  -- "accepts %d arg(s), received %d"

/-! ## A reference cluster

The cluster behind the client is not code of this repository. Where a
property speaks of what the cluster holds, it is stated over this reference
model of the API server: a list of stored objects, keyed by kind, namespace
and name, where `Create` refuses a key that is taken and stores the object
otherwise, `Get` returns the object stored under a key, and `List` with
`client.HasLabels` returns the stored pods that carry every listed label
key, whatever the values. -/

/-- The kind of an object. -/
def Object.kind : Object → Kind
  | .ns _ => Kind.Namespace
  | .secret _ => Kind.Secret
  | .pod _ => Kind.Pod

/-- The metadata of an object. -/
def Object.objectMeta : Object → ObjectMeta
  | .ns n => n.toObjectMeta
  | .secret s => s.toObjectMeta
  | .pod p => p.toObjectMeta

/-- Two objects are stored under the same key. -/
def Object.sameKey (a b : Object) : Bool :=
  decide (a.kind = b.kind) && a.objectMeta.Namespace == b.objectMeta.Namespace &&
    a.objectMeta.Name == b.objectMeta.Name

/-- The pods among stored objects, in order. -/
def podsOf (store : List Object) : List Pod :=
  store.filterMap fun o => match o with
    | .pod p => some p
    | _ => none

/-- The secrets among stored objects, in order. -/
def secretsOf (store : List Object) : List Secret :=
  store.filterMap fun o => match o with
    | .secret s => some s
    | _ => none

/-- The selector `client.HasLabels(keys)`: every key is present. -/
def hasLabels (keys : List String) (m : ObjectMeta) : Bool :=
  keys.all fun k => (m.Labels.lookup k).isSome

/-- The reference API server as a client over the list of stored objects. -/
def apiServer : Client (List Object) where
  Create o store :=
    if store.any (Object.sameKey o) then (some Error.alreadyExists, store)
    else (none, store ++ [o])
  GetPod key store :=
    match (podsOf store).find? fun p => p.Name == key.Name && p.Namespace == key.Namespace with
    | some p => (.ok p, store)
    | none => (.error Error.notFound, store)
  GetSecret key store :=
    match (secretsOf store).find? fun s => s.Name == key.Name && s.Namespace == key.Namespace with
    | some s => (.ok s, store)
    | none => (.error Error.notFound, store)
  ListPods keys store :=
    (.ok ((podsOf store).filter fun p => hasLabels keys p.toObjectMeta), store)

/-- An environment over the reference cluster: the client is `apiServer`, the
other external calls are given. -/
def clusterEnv (cfg : RestConfig) (Write : Config → Except Error Bytes)
    (Intn : Nat → Int → Int) : Env (List Object) :=
  { GetConfig := .ok cfg
    New := fun _ => .ok apiServer
    Write := Write
    Intn := Intn
    Flush := fun _ => none }

/-- The control-plane pod of a kind cluster that `createCmd` looks up, with
host address `hostIP`. -/
def kindControlPlanePod (hostIP : String) : Pod :=
  { Name := "kube-apiserver-kind-control-plane"
    Namespace := "kube-system"
    Status := { HostIP := hostIP } }

/-! ## Claim-level predicates -/

/-- A kubeconfig document grants access with the credentials of `cfg`: its
current context exists, the cluster that context names exists and carries
the CA data of `cfg`, and the user that context names exists and carries the
client certificate and key of `cfg`. -/
def GrantsCredentials (cfg : RestConfig) (doc : Config) : Prop :=
  ∃ ctx, doc.Contexts.lookup doc.CurrentContext = some ctx ∧
    (∃ cl, doc.Clusters.lookup ctx.Cluster = some cl ∧
      cl.CertificateAuthorityData = cfg.CAData) ∧
    (∃ u, doc.AuthInfos.lookup ctx.AuthInfo = some u ∧
      u.ClientCertificateData = cfg.CertData ∧ u.ClientKeyData = cfg.KeyData)

/-- The objects of the `Create` requests of a trace, in order. -/
def createdObjects (calls : List Call) : List Object :=
  calls.filterMap fun c => match c with
    | .Create o => some o
    | _ => none

/-- A request that removes or changes a stored object. -/
def Call.mutates : Call → Bool
  | .Update _ => true
  | .Patch _ => true
  | .Delete _ => true
  | .DeleteAllOf _ => true
  | _ => false

/-- The value of the label `kindred.crds.dev/tenant-api-server` on a pod. -/
def tenantLabel (p : Pod) : String :=
  mapGet p.Labels "kindred.crds.dev/tenant-api-server"

/-- The data rows of a `listCmd` run: the lines written to the tab writer
after the header line. -/
def dataRows {σ : Type} (r : Run σ) : List String :=
  r.tab.drop 1

/-- The number of distinct values of the tenant label among listed pods. -/
def distinctIdentifiers (items : List Pod) : Nat :=
  ((items.map tenantLabel).dedup).length

/-- The key of the control-plane pod that `createCmd` looks up. -/
def createCmd.kubeAPIKey : NamespacedName :=
  { Name := "kube-apiserver-kind-control-plane", Namespace := defaultSysNamespace }

/-- The namespace object of a `createCmd` run. -/
def createCmd.nsObject (Intn : Nat → Int → Int) : Object :=
  .ns (createCmd.tenantNS (createCmd.identifier Intn))

/-- The local `server` of Go `createCmd`. -/
def createCmd.server (Intn : Nat → Int → Int) : Pod :=
  NewAPIServer (createCmd.identifier Intn)
    (createCmd.tenantNS (createCmd.identifier Intn)).Name (createCmd.serverPort Intn)

/-- The local `controller` of Go `createCmd`. -/
def createCmd.controller (Intn : Nat → Int → Int) : Pod :=
  NewControllerManager (createCmd.identifier Intn)
    (createCmd.tenantNS (createCmd.identifier Intn)).Name (createCmd.managerPort Intn)

/-- The secret a `createCmd` run submits when the serialisation of the
kubeconfig yields the bytes `b`, spelled out. -/
def createCmd.secret (Intn : Nat → Int → Int) (b : Bytes) : Secret :=
  { Name := "tenant-kubeconfig-" ++ createCmd.identifier Intn
    Namespace := "kube-tenant-" ++ createCmd.identifier Intn
    Labels := [("kindred.crds.dev/tenant-api-server", createCmd.identifier Intn)]
    Data := [("kubeconfig", b)] }

/-- The fixed order of the cluster requests of `createCmd`, for the secret
`s` it built: create namespace, get control-plane pod, create secret, create
API-server pod, create controller-manager pod. -/
def createCmd.script (Intn : Nat → Int → Int) (s : Secret) : List Call :=
  [ .Create (createCmd.nsObject Intn),
    .Get Kind.Pod createCmd.kubeAPIKey,
    .Create (.secret s),
    .Create (.pod (createCmd.server Intn)),
    .Create (.pod (createCmd.controller Intn)) ]

/-- The objects a run has created: those of its `Create` requests, except
that of the request it panicked on. -/
def Run.created {σ : Type} (r : Run σ) : List Object :=
  match r.panic, r.calls.getLast? with
  | some _, some (.Create _) => (createdObjects r.calls).dropLast
  | _, _ => createdObjects r.calls

/-! ## Sample inputs -/

/-- A client configuration with an empty TLS server name. -/
def sampleCfg : RestConfig :=
  { ServerName := "", CAData := [1], CertData := [2], KeyData := [3] }

/-- A client configuration with a TLS server name. -/
def namedCfg : RestConfig :=
  { ServerName := "kind", CAData := [1], CertData := [2], KeyData := [3] }

/-- A serialiser that always succeeds with the same two bytes. -/
def sampleWrite : Config → Except Error Bytes := fun _ => .ok [7, 8]

/-- A random source whose `k`-th call returns `k + 5` reduced below `n`. -/
def sampleIntn : Nat → Int → Int := fun k n => ((k : Int) + 5) % n

/-- The reference cluster with `sampleCfg`, `sampleWrite` and `sampleIntn`. -/
def sampleEnv : Env (List Object) := clusterEnv sampleCfg sampleWrite sampleIntn

/-- A kind cluster before any tenant is created. -/
def sampleStore : List Object := [.pod (kindControlPlanePod "10.0.0.1")]

/-- The four objects of one tenant share the identifier `id`: the names are
the fixed prefixes followed by `id`, the secret and the pods live in the
tenant namespace, every label value is `id`, and the two pods carry it under
two different label keys. -/
def SharesIdentifier (id : String) (n : Namespace) (s : Secret) (a m : Pod) : Prop :=
  n.Name = "kube-tenant-" ++ id ∧ s.Name = "tenant-kubeconfig-" ++ id ∧
  a.Name = "tenant-kube-apiserver-" ++ id ∧ m.Name = "tenant-kube-controller-manager-" ++ id ∧
  s.Namespace = "kube-tenant-" ++ id ∧ a.Namespace = "kube-tenant-" ++ id ∧
  m.Namespace = "kube-tenant-" ++ id ∧
  (∀ kv ∈ n.Labels ++ s.Labels ++ a.Labels ++ m.Labels, kv.2 = id) ∧
  a.Labels.lookup "kindred.crds.dev/tenant-api-server" = some id ∧
  m.Labels.lookup "kindred.crds.dev/tenant-controller-manager" = some id ∧
  "kindred.crds.dev/tenant-api-server" ≠ "kindred.crds.dev/tenant-controller-manager"

/-- The secret `createCmd` stores for identifier `5` when serialisation
yields the bytes of `sampleWrite`. -/
def sampleSecret : Secret :=
  { Name := "tenant-kubeconfig-5", Namespace := "kube-tenant-5",
    Labels := [("kindred.crds.dev/tenant-api-server", "5")],
    Data := [("kubeconfig", [7, 8])] }

/-- Two API-server pods that carry the same identifier `1` in two namespaces. -/
def dupStore : List Object :=
  [.pod (NewAPIServer "1" "kube-tenant-1" 7001), .pod (NewAPIServer "1" "staging" 7002)]

/-- A kind cluster in which a secret already occupies the key of the
kubeconfig secret of the tenant with identifier `5`. -/
def secretTakenStore : List Object :=
  [.pod (kindControlPlanePod "10.0.0.1"), .secret sampleSecret]

/-- A kind cluster holding the objects of the tenant with identifier `5`, in
some order. -/
def tenantStore : List Object :=
  [.pod (kindControlPlanePod "10.0.0.1"),
   .pod (NewControllerManager "5" ("kube-tenant-" ++ "5") 11007),
   .secret sampleSecret,
   .ns (createCmd.tenantNS "5"),
   .pod (NewAPIServer "5" ("kube-tenant-" ++ "5") 7006)]

/-! ## Theorems -/

/-- C1: when serialisation succeeds, the secret holds the serialisation of a
kubeconfig document with exactly one cluster entry, whose server field is
exactly `https://` followed by the host, a colon and the decimal port. -/
theorem secretForTenantKubeConfig_server (Write : Config → Except Error Bytes)
    (cfg : RestConfig) (host identifier namespace_ : String) (port : Int) (s : Secret)
    (h : secretForTenantKubeConfig Write cfg host identifier namespace_ port = .ok s) :
    ∃ b cl, Write (secretForTenantKubeConfig.kube cfg host port) = .ok b ∧
      s.Data = [("kubeconfig", b)] ∧
      (secretForTenantKubeConfig.kube cfg host port).Clusters = [(cfg.ServerName, cl)] ∧
      cl.Server = "https://" ++ host ++ ":" ++ toString port := by
  unfold secretForTenantKubeConfig at h
  cases hw : Write (secretForTenantKubeConfig.kube cfg host port) with
  | error e => rw [hw] at h; cases h
  | ok b =>
    rw [hw] at h
    injection h with h
    subst h
    exact ⟨b, _, rfl, rfl, rfl, rfl⟩

/-- C1, at a sample input: serialisation succeeds and the server field is
built from host `10.0.0.1` and port `7001`. -/
theorem secretForTenantKubeConfig_server_witness :
    secretForTenantKubeConfig sampleWrite sampleCfg "10.0.0.1" "5" "kube-tenant-5" 7001 =
      .ok sampleSecret ∧
    ∃ b cl, sampleWrite (secretForTenantKubeConfig.kube sampleCfg "10.0.0.1" 7001) = .ok b ∧
      sampleSecret.Data = [("kubeconfig", b)] ∧
      (secretForTenantKubeConfig.kube sampleCfg "10.0.0.1" 7001).Clusters =
        [(sampleCfg.ServerName, cl)] ∧
      cl.Server = "https://" ++ "10.0.0.1" ++ ":" ++ toString (7001 : Int) :=
  ⟨rfl, secretForTenantKubeConfig_server sampleWrite sampleCfg "10.0.0.1" "5" "kube-tenant-5"
    7001 sampleSecret rfl⟩

/-- The namespace name `kube-tenant` + `-` + identifier, with the separator
folded into the prefix. -/
theorem tenantNS_name (id : String) :
    (createCmd.tenantNS id).Name = "kube-tenant-" ++ id := by
  show "kube-tenant" ++ "-" ++ id = _
  rw [String.append_assoc]; rfl

/-- The secret name `tenant-kubeconfig` + `-` + identifier, with the
separator folded into the prefix. -/
theorem secret_name_of_ok (Write : Config → Except Error Bytes) (cfg : RestConfig)
    (host id ns : String) (port : Int) (s : Secret)
    (h : secretForTenantKubeConfig Write cfg host id ns port = .ok s) :
    s.Name = "tenant-kubeconfig-" ++ id ∧ s.Namespace = ns ∧
      s.Labels = [("kindred.crds.dev/tenant-api-server", id)] ∧
      s.Data = [("kubeconfig", mapGetBytes s.Data "kubeconfig")] ∧
      Write (secretForTenantKubeConfig.kube cfg host port) =
        .ok (mapGetBytes s.Data "kubeconfig") := by
  unfold secretForTenantKubeConfig at h
  cases hw : Write (secretForTenantKubeConfig.kube cfg host port) with
  | error e => rw [hw] at h; cases h
  | ok b =>
    rw [hw] at h
    injection h with h
    subst h
    refine ⟨?_, rfl, rfl, rfl, rfl⟩
    show "tenant-kubeconfig" ++ "-" ++ id = _
    rw [String.append_assoc]; rfl

/-- The builders of the four tenant objects embed one identifier. -/
theorem sharesIdentifier_builders (Write : Config → Except Error Bytes) (cfg : RestConfig)
    (host id : String) (p q : Int) (s : Secret)
    (h : secretForTenantKubeConfig Write cfg host id ("kube-tenant-" ++ id) p = .ok s) :
    SharesIdentifier id (createCmd.tenantNS id) s (NewAPIServer id ("kube-tenant-" ++ id) p)
      (NewControllerManager id ("kube-tenant-" ++ id) q) := by
  obtain ⟨hn, hns, hl, -, -⟩ := secret_name_of_ok Write cfg host id _ p s h
  refine ⟨tenantNS_name id, hn, rfl, rfl, hns, rfl, rfl, ?_, ?_, ?_, by decide⟩
  · intro kv hkv
    simp [createCmd.tenantNS, NewAPIServer, NewControllerManager, hl] at hkv
    rcases hkv with rfl | rfl <;> rfl
  · simp [NewAPIServer, List.lookup]
  · simp [NewControllerManager, List.lookup]

/-- A run of `createCmd` that does not panic has created, in order, the
namespace, the secret, the API-server pod and the controller-manager pod. -/
theorem createCmd_run_ok {σ : Type} (env : Env σ) (w : σ)
    (h : (createCmd env w).panic = none) :
    ∃ cfg host s,
      secretForTenantKubeConfig env.Write cfg host (createCmd.identifier env.Intn)
        ("kube-tenant-" ++ createCmd.identifier env.Intn) (createCmd.serverPort env.Intn) = .ok s ∧
      createdObjects (createCmd env w).calls =
        [.ns (createCmd.tenantNS (createCmd.identifier env.Intn)), .secret s,
         .pod (NewAPIServer (createCmd.identifier env.Intn)
            ("kube-tenant-" ++ createCmd.identifier env.Intn) (createCmd.serverPort env.Intn)),
         .pod (NewControllerManager (createCmd.identifier env.Intn)
            ("kube-tenant-" ++ createCmd.identifier env.Intn) (createCmd.managerPort env.Intn))] := by
  have hns := tenantNS_name (createCmd.identifier env.Intn)
  cases hcfg : env.GetConfig with
  | error e => simp [createCmd, hcfg] at h
  | ok cfg =>
    cases hnew : env.New cfg with
    | error e => simp [createCmd, hcfg, hnew] at h
    | ok c =>
      rcases h1 : c.Create (.ns (createCmd.tenantNS (createCmd.identifier env.Intn))) w
        with ⟨_ | e, w1⟩
      · rcases h2 : c.GetPod ⟨"kube-apiserver-kind-control-plane", defaultSysNamespace⟩ w1
          with ⟨e | kubeAPI, w2⟩
        · simp [createCmd, hcfg, hnew, h1, h2] at h
        · cases h3 : secretForTenantKubeConfig env.Write cfg kubeAPI.Status.HostIP
              (createCmd.identifier env.Intn)
              (createCmd.tenantNS (createCmd.identifier env.Intn)).Name
              (createCmd.serverPort env.Intn) with
          | error e => simp [createCmd, hcfg, hnew, h1, h2, h3] at h
          | ok s =>
            rcases h4 : c.Create (.secret s) w2 with ⟨_ | e, w3⟩
            · rcases h5 : c.Create (.pod (NewAPIServer (createCmd.identifier env.Intn)
                  (createCmd.tenantNS (createCmd.identifier env.Intn)).Name
                  (createCmd.serverPort env.Intn))) w3 with ⟨_ | e, w4⟩
              · rcases h6 : c.Create (.pod (NewControllerManager (createCmd.identifier env.Intn)
                    (createCmd.tenantNS (createCmd.identifier env.Intn)).Name
                    (createCmd.managerPort env.Intn))) w4 with ⟨_ | e, w5⟩
                · refine ⟨cfg, kubeAPI.Status.HostIP, s, ?_, ?_⟩
                  · rw [← hns]; exact h3
                  · simp only [createCmd, hcfg, hnew, h1, h2, h3, h4, h5, h6]
                    rw [← hns]
                    rfl
                · simp [createCmd, hcfg, hnew, h1, h2, h3, h4, h5, h6] at h
              · simp [createCmd, hcfg, hnew, h1, h2, h3, h4, h5] at h
            · simp [createCmd, hcfg, hnew, h1, h2, h3, h4] at h
      · simp [createCmd, hcfg, hnew, h1] at h

/-- C2: for every identifier and ports, the namespace, secret and two pods
built for it are named by the fixed prefixes and the identifier, the secret
and pods lie in the tenant namespace, every label value is the identifier and
the two pods carry it under two different keys; and a run of the create
command that completes has submitted exactly these four objects, built with
the run's identifier and ports. -/
theorem createCmd_objects_share_identifier :
    (∀ (Write : Config → Except Error Bytes) (cfg : RestConfig) (host id : String)
        (p q : Int) (s : Secret),
        secretForTenantKubeConfig Write cfg host id ("kube-tenant-" ++ id) p = .ok s →
        SharesIdentifier id (createCmd.tenantNS id) s (NewAPIServer id ("kube-tenant-" ++ id) p)
          (NewControllerManager id ("kube-tenant-" ++ id) q)) ∧
    (∀ (σ : Type) (env : Env σ) (w : σ), (createCmd env w).panic = none →
      ∃ s, createdObjects (createCmd env w).calls =
          [.ns (createCmd.tenantNS (createCmd.identifier env.Intn)), .secret s,
           .pod (NewAPIServer (createCmd.identifier env.Intn)
              ("kube-tenant-" ++ createCmd.identifier env.Intn) (createCmd.serverPort env.Intn)),
           .pod (NewControllerManager (createCmd.identifier env.Intn)
              ("kube-tenant-" ++ createCmd.identifier env.Intn)
              (createCmd.managerPort env.Intn))] ∧
        SharesIdentifier (createCmd.identifier env.Intn)
          (createCmd.tenantNS (createCmd.identifier env.Intn)) s
          (NewAPIServer (createCmd.identifier env.Intn)
            ("kube-tenant-" ++ createCmd.identifier env.Intn) (createCmd.serverPort env.Intn))
          (NewControllerManager (createCmd.identifier env.Intn)
            ("kube-tenant-" ++ createCmd.identifier env.Intn)
            (createCmd.managerPort env.Intn))) := by
  refine ⟨sharesIdentifier_builders, ?_⟩
  intro σ env w h
  obtain ⟨cfg, host, s, hs, hobjs⟩ := createCmd_run_ok env w h
  exact ⟨s, hobjs, sharesIdentifier_builders _ _ _ _ _ _ _ hs⟩

/-- C2, at a sample input: creating a tenant in a fresh kind cluster completes
and submits the four objects of identifier `5`. -/
theorem createCmd_objects_share_identifier_witness :
    (createCmd sampleEnv sampleStore).panic = none ∧
    ∃ s, createdObjects (createCmd sampleEnv sampleStore).calls =
        [.ns (createCmd.tenantNS (createCmd.identifier sampleEnv.Intn)), .secret s,
         .pod (NewAPIServer (createCmd.identifier sampleEnv.Intn)
            ("kube-tenant-" ++ createCmd.identifier sampleEnv.Intn)
            (createCmd.serverPort sampleEnv.Intn)),
         .pod (NewControllerManager (createCmd.identifier sampleEnv.Intn)
            ("kube-tenant-" ++ createCmd.identifier sampleEnv.Intn)
            (createCmd.managerPort sampleEnv.Intn))] ∧
      SharesIdentifier (createCmd.identifier sampleEnv.Intn)
        (createCmd.tenantNS (createCmd.identifier sampleEnv.Intn)) s
        (NewAPIServer (createCmd.identifier sampleEnv.Intn)
          ("kube-tenant-" ++ createCmd.identifier sampleEnv.Intn)
          (createCmd.serverPort sampleEnv.Intn))
        (NewControllerManager (createCmd.identifier sampleEnv.Intn)
          ("kube-tenant-" ++ createCmd.identifier sampleEnv.Intn)
          (createCmd.managerPort sampleEnv.Intn)) :=
  ⟨by decide, createCmd_objects_share_identifier.2 _ sampleEnv sampleStore (by decide)⟩

/-- C3: if the cluster returns the secret built by `secretForTenantKubeConfig`
for identifier `id` and namespace `kube-tenant-` + `id` when asked for that
secret's own name and namespace, then `configCmd` with argument `id` sends
exactly one request, a get of the secret `tenant-kubeconfig-` + `id` in
namespace `kube-tenant-` + `id`, does not panic, and writes exactly the bytes
stored under the data key `kubeconfig`, which are the serialised
kubeconfig. -/
theorem configCmd_roundtrip {σ : Type} (env : Env σ) (c : Client σ) (cfg0 : RestConfig)
    (w w1 : σ) (Write : Config → Except Error Bytes) (cfg : RestConfig) (host id : String)
    (port : Int) (s : Secret)
    (hcfg : env.GetConfig = .ok cfg0) (hnew : env.New cfg0 = .ok c)
    (hs : secretForTenantKubeConfig Write cfg host id ("kube-tenant-" ++ id) port = .ok s)
    (hget : c.GetSecret ⟨s.Name, s.Namespace⟩ w = (.ok s, w1)) :
    (configCmd env [id] w).calls =
        [Call.Get Kind.Secret ⟨"tenant-kubeconfig-" ++ id, "kube-tenant-" ++ id⟩] ∧
      (s.Name = "tenant-kubeconfig-" ++ id ∧ s.Namespace = "kube-tenant-" ++ id) ∧
      (configCmd env [id] w).stdout = [Output.raw (mapGetBytes s.Data "kubeconfig")] ∧
      (configCmd env [id] w).panic = none ∧
      Write (secretForTenantKubeConfig.kube cfg host port) =
        .ok (mapGetBytes s.Data "kubeconfig") := by
  obtain ⟨hn, hns, -, -, hb⟩ := secret_name_of_ok Write cfg host id _ port s hs
  have e1 : tenantKubeconfigSecretPrefix ++ "-" ++ id = "tenant-kubeconfig-" ++ id := by
    show "tenant-kubeconfig" ++ "-" ++ id = _
    rw [String.append_assoc]; rfl
  have e2 : tenantNamespacePrefix ++ "-" ++ id = "kube-tenant-" ++ id := by
    show "kube-tenant" ++ "-" ++ id = _
    rw [String.append_assoc]; rfl
  rw [hn, hns] at hget
  refine ⟨?_, ⟨hn, hns⟩, ?_, ?_, hb⟩ <;> simp only [configCmd, hcfg, hnew, e1, e2, hget]

/-- C3, at a sample input: after `createCmd` has run on a fresh kind cluster,
`configCmd` with the identifier prints the stored bytes. -/
theorem configCmd_roundtrip_witness :
    (sampleEnv.GetConfig = .ok sampleCfg ∧ sampleEnv.New sampleCfg = .ok apiServer ∧
      secretForTenantKubeConfig sampleWrite sampleCfg "10.0.0.1" "5" ("kube-tenant-" ++ "5")
        7001 = .ok sampleSecret ∧
      apiServer.GetSecret ⟨sampleSecret.Name, sampleSecret.Namespace⟩
        (createCmd sampleEnv sampleStore).world =
        (.ok sampleSecret, (createCmd sampleEnv sampleStore).world)) ∧
    ((configCmd sampleEnv ["5"] (createCmd sampleEnv sampleStore).world).calls =
        [Call.Get Kind.Secret ⟨"tenant-kubeconfig-" ++ "5", "kube-tenant-" ++ "5"⟩] ∧
      (sampleSecret.Name = "tenant-kubeconfig-" ++ "5" ∧
        sampleSecret.Namespace = "kube-tenant-" ++ "5") ∧
      (configCmd sampleEnv ["5"] (createCmd sampleEnv sampleStore).world).stdout =
        [Output.raw (mapGetBytes sampleSecret.Data "kubeconfig")] ∧
      (configCmd sampleEnv ["5"] (createCmd sampleEnv sampleStore).world).panic = none ∧
      sampleWrite (secretForTenantKubeConfig.kube sampleCfg "10.0.0.1" 7001) =
        .ok (mapGetBytes sampleSecret.Data "kubeconfig")) :=
  ⟨⟨rfl, rfl, rfl, rfl⟩,
    configCmd_roundtrip sampleEnv apiServer sampleCfg (createCmd sampleEnv sampleStore).world
      (createCmd sampleEnv sampleStore).world sampleWrite sampleCfg "10.0.0.1" "5" 7001
      sampleSecret rfl rfl rfl rfl⟩

/-- The kubeconfig built by `secretForTenantKubeConfig` grants access with the
caller's credentials exactly when the TLS server name of the client
configuration is empty: the context is given a cluster but no user, so the
user it names is the empty name, while the credentials are stored under the
server name. -/
theorem grantsCredentials_iff (cfg : RestConfig) (host : String) (port : Int) :
    GrantsCredentials cfg (secretForTenantKubeConfig.kube cfg host port) ↔
      cfg.ServerName = "" := by
  constructor
  · rintro ⟨ctx, hctx, -, u, hu, -⟩
    simp only [secretForTenantKubeConfig.kube, List.lookup, beq_self_eq_true] at hctx hu
    injection hctx with hctx
    subst hctx
    by_contra hne
    have hb : (("" : String) == cfg.ServerName) = false := by
      simpa using fun h => hne h.symm
    simp [hb] at hu
  · intro h
    refine ⟨{ Cluster := cfg.ServerName }, ?_,
      ⟨{ Server := "https://" ++ host ++ ":" ++ fmtInt port,
         CertificateAuthorityData := cfg.CAData }, ?_, rfl⟩,
      ⟨{ ClientCertificateData := cfg.CertData, ClientKeyData := cfg.KeyData }, ?_, rfl, rfl⟩⟩
    · simp [secretForTenantKubeConfig.kube, List.lookup]
    · simp [secretForTenantKubeConfig.kube, List.lookup]
    · simp [secretForTenantKubeConfig.kube, List.lookup, h]

/-- C4 (the code departs from it): for a client configuration whose TLS server
name is `kind`, the context of the built kubeconfig names the user with the
empty name, no user is stored under that name, and the document does not grant
access with the caller's credentials, although the credentials are stored
under the name `kind`. -/
theorem secretForTenantKubeConfig_context_names_no_user :
    (secretForTenantKubeConfig.kube namedCfg "10.0.0.1" 7001).Contexts.lookup
        (secretForTenantKubeConfig.kube namedCfg "10.0.0.1" 7001).CurrentContext =
      some { Cluster := "kind", AuthInfo := "" } ∧
    (secretForTenantKubeConfig.kube namedCfg "10.0.0.1" 7001).AuthInfos.lookup "" = none ∧
    (secretForTenantKubeConfig.kube namedCfg "10.0.0.1" 7001).AuthInfos.lookup "kind" =
      some { ClientCertificateData := namedCfg.CertData, ClientKeyData := namedCfg.KeyData } ∧
    ¬ GrantsCredentials namedCfg (secretForTenantKubeConfig.kube namedCfg "10.0.0.1" 7001) := by
  refine ⟨by decide, by decide, by decide, ?_⟩
  rw [grantsCredentials_iff]
  decide

/-- C7: when every `rand.Intn(n)` returns a value in `[0, n)`, the identifier
is the decimal rendering of a natural number at most 49999, the API-server
port lies in `[7000, 8000)`, the controller-manager port lies in
`[11000, 12000)`, and the two ports differ. -/
theorem createCmd_allocation_bounds (Intn : Nat → Int → Int) (h : RandOK Intn) :
    (∃ n : Nat, n ≤ 49999 ∧ createCmd.identifier Intn = toString n) ∧
      (7000 ≤ createCmd.serverPort Intn ∧ createCmd.serverPort Intn < 8000) ∧
      (11000 ≤ createCmd.managerPort Intn ∧ createCmd.managerPort Intn < 12000) ∧
      createCmd.serverPort Intn ≠ createCmd.managerPort Intn := by
  obtain ⟨h0, h0'⟩ := h 0 50000 (by decide)
  obtain ⟨h1, h1'⟩ := h 1 (8000 - 7000) (by decide)
  obtain ⟨h2, h2'⟩ := h 2 (12000 - 11000) (by decide)
  refine ⟨?_, ?_, ?_, ?_⟩
  · obtain ⟨n, hn⟩ := Int.eq_ofNat_of_zero_le h0
    refine ⟨n, by omega, ?_⟩
    unfold createCmd.identifier fmtInt
    rw [hn]
    rfl
  · unfold createCmd.serverPort; omega
  · unfold createCmd.managerPort; omega
  · unfold createCmd.serverPort createCmd.managerPort; omega

/-- The sample random source honours the contract of `rand.Intn`. -/
theorem sampleIntn_ok : RandOK sampleIntn := by
  intro k n hn
  exact ⟨Int.emod_nonneg _ (by omega), Int.emod_lt_of_pos _ hn⟩

/-- C7, at a sample input: the allocation made from `sampleIntn`. -/
theorem createCmd_allocation_bounds_witness :
    RandOK sampleIntn ∧
    ((∃ n : Nat, n ≤ 49999 ∧ createCmd.identifier sampleIntn = toString n) ∧
      (7000 ≤ createCmd.serverPort sampleIntn ∧ createCmd.serverPort sampleIntn < 8000) ∧
      (11000 ≤ createCmd.managerPort sampleIntn ∧ createCmd.managerPort sampleIntn < 12000) ∧
      createCmd.serverPort sampleIntn ≠ createCmd.managerPort sampleIntn) :=
  ⟨sampleIntn_ok, createCmd_allocation_bounds sampleIntn sampleIntn_ok⟩

/-- No run of `createCmd` sends a request that removes or changes a stored
object. -/
theorem createCmd_never_mutates {σ : Type} (env : Env σ) (w : σ) :
    ∀ call ∈ (createCmd env w).calls, call.mutates = false := by
  cases hcfg : env.GetConfig with
  | error e => simp [createCmd, hcfg]
  | ok cfg =>
    cases hnew : env.New cfg with
    | error e => simp [createCmd, hcfg, hnew]
    | ok c =>
      rcases h1 : c.Create (.ns (createCmd.tenantNS (createCmd.identifier env.Intn))) w
        with ⟨_ | e, w1⟩
      · rcases h2 : c.GetPod ⟨"kube-apiserver-kind-control-plane", defaultSysNamespace⟩ w1
          with ⟨e | kubeAPI, w2⟩
        · simp [createCmd, hcfg, hnew, h1, h2, Call.mutates]
        · cases h3 : secretForTenantKubeConfig env.Write cfg kubeAPI.Status.HostIP
              (createCmd.identifier env.Intn)
              (createCmd.tenantNS (createCmd.identifier env.Intn)).Name
              (createCmd.serverPort env.Intn) with
          | error e => simp [createCmd, hcfg, hnew, h1, h2, h3, Call.mutates]
          | ok s =>
            rcases h4 : c.Create (.secret s) w2 with ⟨_ | e, w3⟩
            · rcases h5 : c.Create (.pod (NewAPIServer (createCmd.identifier env.Intn)
                  (createCmd.tenantNS (createCmd.identifier env.Intn)).Name
                  (createCmd.serverPort env.Intn))) w3 with ⟨_ | e, w4⟩
              · rcases h6 : c.Create (.pod (NewControllerManager (createCmd.identifier env.Intn)
                    (createCmd.tenantNS (createCmd.identifier env.Intn)).Name
                    (createCmd.managerPort env.Intn))) w4 with ⟨_ | e, w5⟩
                · simp [createCmd, hcfg, hnew, h1, h2, h3, h4, h5, h6, Call.mutates]
                · simp [createCmd, hcfg, hnew, h1, h2, h3, h4, h5, h6, Call.mutates]
              · simp [createCmd, hcfg, hnew, h1, h2, h3, h4, h5, Call.mutates]
            · simp [createCmd, hcfg, hnew, h1, h2, h3, h4, Call.mutates]
      · simp [createCmd, hcfg, hnew, h1, Call.mutates]

/-- On the reference cluster, creating an object whose key is taken fails
with `alreadyExists` and leaves the store as it was. -/
theorem apiServer_create_taken (o : Object) (store : List Object)
    (h : store.any (Object.sameKey o) = true) :
    apiServer.Create o store = (some Error.alreadyExists, store) := by
  simp only [apiServer, h, if_true]

/-- On the reference cluster a `Create` either stores the object at the end
or fails and leaves the store as it was. -/
theorem apiServer_create_cases (o : Object) (store st : List Object) (r : Option Error)
    (h : apiServer.Create o store = (r, st)) :
    (r = none ∧ st = store ++ [o]) ∨ (r = some Error.alreadyExists ∧ st = store) := by
  simp only [apiServer] at h
  split at h
  · injection h with h1 h2
    exact Or.inr ⟨h1.symm, h2.symm⟩
  · injection h with h1 h2
    exact Or.inl ⟨h1.symm, h2.symm⟩

/-- On the reference cluster a `Get` of a pod leaves the store as it was. -/
theorem apiServer_getPod_world (key : NamespacedName) (store st : List Object)
    (r : Except Error Pod) (h : apiServer.GetPod key store = (r, st)) : st = store := by
  simp only [apiServer] at h
  split at h <;> · injection h with h1 h2; exact h2.symm

/-- On the reference cluster, whatever the outcome of `createCmd`, the store
it leaves is the initial store followed by the objects it has created:
nothing is removed or replaced. -/
theorem createCmd_keeps_created (env : Env (List Object)) (cfg : RestConfig)
    (store : List Object) (hcfg : env.GetConfig = .ok cfg) (hnew : env.New cfg = .ok apiServer) :
    (createCmd env store).world = store ++ (createCmd env store).created := by
  rcases h1 : apiServer.Create (.ns (createCmd.tenantNS (createCmd.identifier env.Intn))) store
    with ⟨r1, w1⟩
  rcases apiServer_create_cases _ _ _ _ h1 with ⟨rfl, hw1⟩ | ⟨rfl, hw1⟩
  · rcases h2 : apiServer.GetPod ⟨"kube-apiserver-kind-control-plane", defaultSysNamespace⟩ w1
      with ⟨r2, w2⟩
    have hw2 := apiServer_getPod_world _ _ _ _ h2
    cases r2 with
    | error e =>
      simp [createCmd, hcfg, hnew, h1, h2, Run.created, createdObjects]
      simp [hw2, hw1]
    | ok kubeAPI =>
      cases h3 : secretForTenantKubeConfig env.Write cfg kubeAPI.Status.HostIP
          (createCmd.identifier env.Intn)
          (createCmd.tenantNS (createCmd.identifier env.Intn)).Name
          (createCmd.serverPort env.Intn) with
      | error e =>
        simp [createCmd, hcfg, hnew, h1, h2, h3, Run.created, createdObjects]
        simp [hw2, hw1]
      | ok s =>
        rcases h4 : apiServer.Create (.secret s) w2 with ⟨r4, w4⟩
        rcases apiServer_create_cases _ _ _ _ h4 with ⟨rfl, hw4⟩ | ⟨rfl, hw4⟩
        · rcases h5 : apiServer.Create (.pod (NewAPIServer (createCmd.identifier env.Intn)
              (createCmd.tenantNS (createCmd.identifier env.Intn)).Name
              (createCmd.serverPort env.Intn))) w4 with ⟨r5, w5⟩
          rcases apiServer_create_cases _ _ _ _ h5 with ⟨rfl, hw5⟩ | ⟨rfl, hw5⟩
          · rcases h6 : apiServer.Create (.pod (NewControllerManager (createCmd.identifier env.Intn)
                (createCmd.tenantNS (createCmd.identifier env.Intn)).Name
                (createCmd.managerPort env.Intn))) w5 with ⟨r6, w6⟩
            rcases apiServer_create_cases _ _ _ _ h6 with ⟨rfl, hw6⟩ | ⟨rfl, hw6⟩
            · simp [createCmd, hcfg, hnew, h1, h2, h3, h4, h5, h6, Run.created, createdObjects]
              simp [hw6, hw5, hw4, hw2, hw1]
            · simp [createCmd, hcfg, hnew, h1, h2, h3, h4, h5, h6, Run.created, createdObjects]
              simp [hw6, hw5, hw4, hw2, hw1]
          · simp [createCmd, hcfg, hnew, h1, h2, h3, h4, h5, Run.created, createdObjects]
            simp [hw5, hw4, hw2, hw1]
        · simp [createCmd, hcfg, hnew, h1, h2, h3, h4, Run.created, createdObjects]
          simp [hw4, hw2, hw1]
  · simp [createCmd, hcfg, hnew, h1, Run.created, createdObjects]
    simp [hw1]

/-- When `clientcmd.Write` returns the bytes `b` for the kubeconfig document,
the secret that `createCmd` obtains from `secretForTenantKubeConfig` is the
one spelled out in `createCmd.secret`. -/
theorem createCmd_secret_of_write (env_Write : Config → Except Error Bytes) (cfg : RestConfig)
    (host : String) (Intn : Nat → Int → Int) (b : Bytes)
    (hw : env_Write (secretForTenantKubeConfig.kube cfg host (createCmd.serverPort Intn)) =
      .ok b) :
    secretForTenantKubeConfig env_Write cfg host (createCmd.identifier Intn)
        (createCmd.tenantNS (createCmd.identifier Intn)).Name (createCmd.serverPort Intn) =
      .ok (createCmd.secret Intn b) := by
  have e1 : tenantKubeconfigSecretPrefix ++ "-" ++ createCmd.identifier Intn =
      "tenant-kubeconfig-" ++ createCmd.identifier Intn := by
    show "tenant-kubeconfig" ++ "-" ++ _ = _
    rw [String.append_assoc]; rfl
  simp only [secretForTenantKubeConfig, hw, e1, tenantNS_name, createCmd.secret]

/-- C5: the create command sends its requests in the order create namespace,
get control-plane pod, create secret, create API-server pod, create
controller-manager pod. Whichever of these (or the serialisation before the
secret is created) first returns an error, the command panics with that
error, the requests sent are exactly those up to and including the failing
one, and the cluster is left in the state the failing request returned; when
every request and the serialisation succeed, all five requests are sent in
that order and the command does not panic. The only conditions are the
results of the external calls. No run sends an update, patch or delete. On
the reference cluster, when the tenant namespace already exists the command
panics with `alreadyExists` having sent only the namespace creation, and the
store is unchanged; and after any run the store is the initial store followed
by the objects the run created. -/
theorem createCmd_aborts_at_first_error :
    (∀ (σ : Type) (env : Env σ) (w : σ), ∀ call ∈ (createCmd env w).calls, call.mutates = false) ∧
    (∀ (σ : Type) (env : Env σ) (c : Client σ) (cfg : RestConfig) (w : σ),
      env.GetConfig = .ok cfg → env.New cfg = .ok c →
      (∀ e w1, c.Create (createCmd.nsObject env.Intn) w = (some e, w1) →
        (createCmd env w).panic = some e ∧ (createCmd env w).world = w1 ∧
        ∀ s, (createCmd env w).calls = (createCmd.script env.Intn s).take 1) ∧
      (∀ w1, c.Create (createCmd.nsObject env.Intn) w = (none, w1) →
        (∀ e w2, c.GetPod createCmd.kubeAPIKey w1 = (.error e, w2) →
          (createCmd env w).panic = some e ∧ (createCmd env w).world = w2 ∧
          ∀ s, (createCmd env w).calls = (createCmd.script env.Intn s).take 2) ∧
        (∀ kubeAPI w2, c.GetPod createCmd.kubeAPIKey w1 = (.ok kubeAPI, w2) →
          (∀ e, env.Write (secretForTenantKubeConfig.kube cfg kubeAPI.Status.HostIP
                (createCmd.serverPort env.Intn)) = .error e →
            (createCmd env w).panic = some e ∧ (createCmd env w).world = w2 ∧
            ∀ s, (createCmd env w).calls = (createCmd.script env.Intn s).take 2) ∧
          (∀ b, env.Write (secretForTenantKubeConfig.kube cfg kubeAPI.Status.HostIP
                (createCmd.serverPort env.Intn)) = .ok b →
            (∀ e w3, c.Create (.secret (createCmd.secret env.Intn b)) w2 = (some e, w3) →
              (createCmd env w).panic = some e ∧ (createCmd env w).world = w3 ∧
              (createCmd env w).calls =
                (createCmd.script env.Intn (createCmd.secret env.Intn b)).take 3) ∧
            (∀ w3, c.Create (.secret (createCmd.secret env.Intn b)) w2 = (none, w3) →
              (∀ e w4, c.Create (.pod (createCmd.server env.Intn)) w3 = (some e, w4) →
                (createCmd env w).panic = some e ∧ (createCmd env w).world = w4 ∧
                (createCmd env w).calls =
                  (createCmd.script env.Intn (createCmd.secret env.Intn b)).take 4) ∧
              (∀ w4, c.Create (.pod (createCmd.server env.Intn)) w3 = (none, w4) →
                (∀ e w5, c.Create (.pod (createCmd.controller env.Intn)) w4 = (some e, w5) →
                  (createCmd env w).panic = some e ∧ (createCmd env w).world = w5 ∧
                  (createCmd env w).calls =
                    createCmd.script env.Intn (createCmd.secret env.Intn b)) ∧
                (∀ w5, c.Create (.pod (createCmd.controller env.Intn)) w4 = (none, w5) →
                  (createCmd env w).panic = none ∧ (createCmd env w).world = w5 ∧
                  (createCmd env w).calls =
                    createCmd.script env.Intn (createCmd.secret env.Intn b)))))))) ∧
    (∀ (env : Env (List Object)) (cfg : RestConfig) (store : List Object),
      env.GetConfig = .ok cfg → env.New cfg = .ok apiServer →
      store.any (Object.sameKey (createCmd.nsObject env.Intn)) = true →
      (createCmd env store).panic = some Error.alreadyExists ∧
      (createCmd env store).world = store ∧
      createdObjects (createCmd env store).calls = [createCmd.nsObject env.Intn]) ∧
    (∀ (env : Env (List Object)) (cfg : RestConfig) (store : List Object),
      env.GetConfig = .ok cfg → env.New cfg = .ok apiServer →
      (createCmd env store).world = store ++ (createCmd env store).created) := by
  refine ⟨fun σ env w => createCmd_never_mutates env w, ?_, ?_, createCmd_keeps_created⟩
  · intro σ env c cfg w hcfg hnew
    simp only [createCmd.nsObject, createCmd.kubeAPIKey, createCmd.server, createCmd.controller,
      createCmd.script]
    refine ⟨?_, ?_⟩
    · intro e w1 h1
      simp [createCmd, hcfg, hnew, h1]
    · intro w1 h1
      refine ⟨?_, ?_⟩
      · intro e w2 h2
        simp [createCmd, hcfg, hnew, h1, h2]
      · intro kubeAPI w2 h2
        refine ⟨?_, ?_⟩
        · intro e h3
          have h3' : secretForTenantKubeConfig env.Write cfg kubeAPI.Status.HostIP
              (createCmd.identifier env.Intn)
              (createCmd.tenantNS (createCmd.identifier env.Intn)).Name
              (createCmd.serverPort env.Intn) = .error e := by
            simp [secretForTenantKubeConfig, h3]
          simp [createCmd, hcfg, hnew, h1, h2, h3']
        · intro b hb
          have h3 := createCmd_secret_of_write env.Write cfg kubeAPI.Status.HostIP env.Intn b hb
          refine ⟨?_, ?_⟩
          · intro e w3 h4
            simp [createCmd, hcfg, hnew, h1, h2, h3, h4]
          · intro w3 h4
            refine ⟨?_, ?_⟩
            · intro e w4 h5
              simp [createCmd, hcfg, hnew, h1, h2, h3, h4, h5]
            · intro w4 h5
              refine ⟨?_, ?_⟩
              · intro e w5 h6
                simp [createCmd, hcfg, hnew, h1, h2, h3, h4, h5, h6]
              · intro w5 h6
                simp [createCmd, hcfg, hnew, h1, h2, h3, h4, h5, h6]
  · intro env cfg store hcfg hnew htaken
    have h1 := apiServer_create_taken _ store htaken
    simp only [createCmd.nsObject] at h1 ⊢
    simp [createCmd, hcfg, hnew, h1, createdObjects]

/-- C5, at a sample input, on the reference cluster. On a fresh kind cluster
every request succeeds and the run sends all five requests in order, leaving
the four objects behind. On the cluster left by that run, a second run with
the same identifier fails on the namespace creation and changes nothing. On a
cluster without the control-plane pod the run stops at the lookup, leaving
the namespace it created. On a cluster where the key of the secret is taken
the run stops at the third request, leaving the namespace it created. -/
theorem createCmd_aborts_at_first_error_witness :
    ((sampleEnv.GetConfig = .ok sampleCfg ∧ sampleEnv.New sampleCfg = .ok apiServer ∧
        sampleEnv.Write (secretForTenantKubeConfig.kube sampleCfg "10.0.0.1"
          (createCmd.serverPort sampleEnv.Intn)) = .ok [7, 8]) ∧
      (createCmd sampleEnv sampleStore).panic = none ∧
      (createCmd sampleEnv sampleStore).world =
        sampleStore ++ [createCmd.nsObject sampleEnv.Intn,
          .secret (createCmd.secret sampleEnv.Intn [7, 8]),
          .pod (createCmd.server sampleEnv.Intn), .pod (createCmd.controller sampleEnv.Intn)] ∧
      (createCmd sampleEnv sampleStore).calls =
        createCmd.script sampleEnv.Intn (createCmd.secret sampleEnv.Intn [7, 8])) ∧
    ((createCmd sampleEnv sampleStore).calls.length = 5 ∧
      createdObjects (createCmd sampleEnv sampleStore).calls =
        [.ns (createCmd.tenantNS "5"), .secret sampleSecret,
         .pod (NewAPIServer "5" "kube-tenant-5" 7006),
         .pod (NewControllerManager "5" "kube-tenant-5" 11007)]) ∧
    ((createCmd sampleEnv sampleStore).world.any
        (Object.sameKey (createCmd.nsObject sampleEnv.Intn)) = true ∧
      (createCmd sampleEnv (createCmd sampleEnv sampleStore).world).panic =
        some Error.alreadyExists ∧
      (createCmd sampleEnv (createCmd sampleEnv sampleStore).world).world =
        (createCmd sampleEnv sampleStore).world ∧
      createdObjects (createCmd sampleEnv (createCmd sampleEnv sampleStore).world).calls =
        [createCmd.nsObject sampleEnv.Intn]) ∧
    ((apiServer.Create (createCmd.nsObject sampleEnv.Intn) [] =
        (none, [createCmd.nsObject sampleEnv.Intn]) ∧
      apiServer.GetPod createCmd.kubeAPIKey [createCmd.nsObject sampleEnv.Intn] =
        (.error Error.notFound, [createCmd.nsObject sampleEnv.Intn])) ∧
      (createCmd sampleEnv []).panic = some Error.notFound ∧
      (createCmd sampleEnv []).world = [createCmd.nsObject sampleEnv.Intn] ∧
      ∀ s, (createCmd sampleEnv []).calls = (createCmd.script sampleEnv.Intn s).take 2) ∧
    (apiServer.Create (.secret (createCmd.secret sampleEnv.Intn [7, 8]))
        (secretTakenStore ++ [createCmd.nsObject sampleEnv.Intn]) =
        (some Error.alreadyExists, secretTakenStore ++ [createCmd.nsObject sampleEnv.Intn]) ∧
      (createCmd sampleEnv secretTakenStore).panic = some Error.alreadyExists ∧
      (createCmd sampleEnv secretTakenStore).world =
        secretTakenStore ++ [createCmd.nsObject sampleEnv.Intn] ∧
      (createCmd sampleEnv secretTakenStore).calls =
        (createCmd.script sampleEnv.Intn (createCmd.secret sampleEnv.Intn [7, 8])).take 3) :=
  ⟨⟨⟨rfl, rfl, rfl⟩,
      ((((((createCmd_aborts_at_first_error.2.1 _ sampleEnv apiServer sampleCfg sampleStore
        rfl rfl).2 (sampleStore ++ [createCmd.nsObject sampleEnv.Intn]) rfl).2
        (kindControlPlanePod "10.0.0.1") (sampleStore ++ [createCmd.nsObject sampleEnv.Intn])
        rfl).2 [7, 8] rfl).2
        (sampleStore ++ [createCmd.nsObject sampleEnv.Intn,
          .secret (createCmd.secret sampleEnv.Intn [7, 8])]) rfl).2
        (sampleStore ++ [createCmd.nsObject sampleEnv.Intn,
          .secret (createCmd.secret sampleEnv.Intn [7, 8]),
          .pod (createCmd.server sampleEnv.Intn)]) rfl).2
        (sampleStore ++ [createCmd.nsObject sampleEnv.Intn,
          .secret (createCmd.secret sampleEnv.Intn [7, 8]),
          .pod (createCmd.server sampleEnv.Intn), .pod (createCmd.controller sampleEnv.Intn)])
        rfl⟩,
    ⟨by decide, by decide⟩,
    ⟨by decide,
      createCmd_aborts_at_first_error.2.2.1 sampleEnv sampleCfg
        (createCmd sampleEnv sampleStore).world rfl rfl (by decide)⟩,
    ⟨⟨rfl, rfl⟩,
      ((createCmd_aborts_at_first_error.2.1 _ sampleEnv apiServer sampleCfg [] rfl rfl).2
        [createCmd.nsObject sampleEnv.Intn] rfl).1 Error.notFound
        [createCmd.nsObject sampleEnv.Intn] rfl⟩,
    ⟨rfl,
      ((((createCmd_aborts_at_first_error.2.1 _ sampleEnv apiServer sampleCfg secretTakenStore
        rfl rfl).2 (secretTakenStore ++ [createCmd.nsObject sampleEnv.Intn]) rfl).2
        (kindControlPlanePod "10.0.0.1")
        (secretTakenStore ++ [createCmd.nsObject sampleEnv.Intn]) rfl).2 [7, 8] rfl).1
        Error.alreadyExists (secretTakenStore ++ [createCmd.nsObject sampleEnv.Intn]) rfl⟩⟩

/-- C6 as stated fails: when the label query returns two pods that carry the
same identifier, `listCmd` writes two data rows although there is one
distinct identifier. -/
theorem listCmd_rows_not_per_distinct_identifier :
    apiServer.ListPods ["kindred.crds.dev/tenant-api-server"] dupStore =
      (.ok (podsOf dupStore), dupStore) ∧
    distinctIdentifiers (podsOf dupStore) = 1 ∧
    (dataRows (listCmd sampleEnv dupStore)).length = 2 ∧
    ¬ (dataRows (listCmd sampleEnv dupStore)).length = distinctIdentifiers (podsOf dupStore) := by
  refine ⟨rfl, by decide, by decide, by decide⟩

/-- The line written for a listed pod, spelled out: the pod's own namespace,
the pod's own name, and the controller-manager and secret names formed from
the value of the pod's tenant label, separated by tabs and closed by a
newline. -/
theorem listCmd_row_spelled_out (p : Pod) :
    listCmd.row p =
      p.Namespace ++ "\t" ++ p.Name ++ "\t" ++
        ("tenant-kube-controller-manager-" ++
          (p.Labels.lookup "kindred.crds.dev/tenant-api-server").getD "") ++ "\t" ++
        ("tenant-kubeconfig-" ++
          (p.Labels.lookup "kindred.crds.dev/tenant-api-server").getD "") ++ "\n" := by
  have e1 : ∀ x : String, "tenant-kube-controller-manager" ++ "-" ++ x =
      "tenant-kube-controller-manager-" ++ x := by
    intro x
    rw [String.append_assoc]; rfl
  have e2 : ∀ x : String, "tenant-kubeconfig" ++ "-" ++ x = "tenant-kubeconfig-" ++ x := by
    intro x
    rw [String.append_assoc]; rfl
  simp only [listCmd.row, mapGet, e1, e2]

/-- C6, amended: when the label query returns `items`, `listCmd` sends that
one query and writes to the tab writer one data row per returned pod, in
order; the row of a pod is the pod's own namespace, the pod's own name,
`tenant-kube-controller-manager-` followed by the pod's label value and
`tenant-kubeconfig-` followed by the pod's label value, tab-separated and
closed by a newline. The number of rows is the number of returned pods, and it
is the number of distinct identifiers exactly when the returned pods carry
pairwise distinct label values. For an empty list it writes no row and no
header and prints the sentinel message; otherwise it writes the header line
first and prints nothing else. The run ends with the result of flushing the
tab writer. -/
theorem listCmd_one_row_per_pod {σ : Type} (env : Env σ) (c : Client σ) (cfg : RestConfig)
    (w w1 : σ) (items : List Pod)
    (hcfg : env.GetConfig = .ok cfg) (hnew : env.New cfg = .ok c)
    (hlist : c.ListPods ["kindred.crds.dev/tenant-api-server"] w = (.ok items, w1)) :
    (listCmd env w).calls = [Call.List Kind.Pod ["kindred.crds.dev/tenant-api-server"]] ∧
      dataRows (listCmd env w) = items.map (fun p =>
        p.Namespace ++ "\t" ++ p.Name ++ "\t" ++
          ("tenant-kube-controller-manager-" ++
            (p.Labels.lookup "kindred.crds.dev/tenant-api-server").getD "") ++ "\t" ++
          ("tenant-kubeconfig-" ++
            (p.Labels.lookup "kindred.crds.dev/tenant-api-server").getD "") ++ "\n") ∧
      (dataRows (listCmd env w)).length = items.length ∧
      ((dataRows (listCmd env w)).length = distinctIdentifiers items ↔
        (items.map tenantLabel).Nodup) ∧
      (items = [] → (listCmd env w).tab = [] ∧
        (listCmd env w).stdout = [Output.str "No tenant instances found.\n"]) ∧
      (items ≠ [] →
        (listCmd env w).tab =
          "NAMESPACE\tAPI SERVER\tCONTROLLER MANAGER\tKUBECONFIG\n" :: dataRows (listCmd env w) ∧
        (listCmd env w).stdout = []) ∧
      (listCmd env w).panic = env.Flush (listCmd env w).tab ∧
      (listCmd env w).world = w1 := by
  have hmap : items.map listCmd.row = items.map (fun p =>
      p.Namespace ++ "\t" ++ p.Name ++ "\t" ++
        ("tenant-kube-controller-manager-" ++
          (p.Labels.lookup "kindred.crds.dev/tenant-api-server").getD "") ++ "\t" ++
        ("tenant-kubeconfig-" ++
          (p.Labels.lookup "kindred.crds.dev/tenant-api-server").getD "") ++ "\n") :=
    List.map_congr_left fun p _ => listCmd_row_spelled_out p
  have hrows : dataRows (listCmd env w) = items.map listCmd.row := by
    cases items with
    | nil => simp [dataRows, listCmd, hcfg, hnew, hlist]
    | cons a l => simp [dataRows, listCmd, hcfg, hnew, hlist]
  refine ⟨?_, hrows.trans hmap, ?_, ?_, ?_, ?_, ?_, ?_⟩
  · simp [listCmd, hcfg, hnew, hlist]
  · rw [hrows, List.length_map]
  · rw [hrows, List.length_map, distinctIdentifiers]
    constructor
    · intro h
      have hsub : List.Sublist (items.map tenantLabel).dedup (items.map tenantLabel) :=
        List.dedup_sublist _
      have hlen : ((items.map tenantLabel).dedup).length = (items.map tenantLabel).length := by
        rw [List.length_map, ← h]
      exact List.dedup_eq_self.mp (hsub.eq_of_length hlen)
    · intro h
      rw [List.dedup_eq_self.mpr h, List.length_map]
  · intro h
    subst h
    simp [listCmd, hcfg, hnew, hlist]
  · intro h
    rw [hrows]
    cases items with
    | nil => exact absurd rfl h
    | cons a l =>
      refine ⟨?_, ?_⟩
      · simp [listCmd, hcfg, hnew, hlist]
        rfl
      · simp [listCmd, hcfg, hnew, hlist]
  · simp [listCmd, hcfg, hnew, hlist]
  · simp [listCmd, hcfg, hnew, hlist]

/-- C6 amended, at a sample input: the two pods of `dupStore`, which carry the
same identifier in the namespaces `kube-tenant-1` and `staging`, give two rows,
each showing its pod's own namespace. -/
theorem listCmd_one_row_per_pod_witness :
    (sampleEnv.GetConfig = .ok sampleCfg ∧ sampleEnv.New sampleCfg = .ok apiServer ∧
      apiServer.ListPods ["kindred.crds.dev/tenant-api-server"] dupStore =
        (.ok (podsOf dupStore), dupStore)) ∧
    (dataRows (listCmd sampleEnv dupStore) =
      ["kube-tenant-1\ttenant-kube-apiserver-1\ttenant-kube-controller-manager-1\ttenant-kubeconfig-1\n",
       "staging\ttenant-kube-apiserver-1\ttenant-kube-controller-manager-1\ttenant-kubeconfig-1\n"]) ∧
    ((listCmd sampleEnv dupStore).calls =
        [Call.List Kind.Pod ["kindred.crds.dev/tenant-api-server"]] ∧
      dataRows (listCmd sampleEnv dupStore) = (podsOf dupStore).map (fun p =>
        p.Namespace ++ "\t" ++ p.Name ++ "\t" ++
          ("tenant-kube-controller-manager-" ++
            (p.Labels.lookup "kindred.crds.dev/tenant-api-server").getD "") ++ "\t" ++
          ("tenant-kubeconfig-" ++
            (p.Labels.lookup "kindred.crds.dev/tenant-api-server").getD "") ++ "\n") ∧
      (dataRows (listCmd sampleEnv dupStore)).length = (podsOf dupStore).length ∧
      ((dataRows (listCmd sampleEnv dupStore)).length = distinctIdentifiers (podsOf dupStore) ↔
        ((podsOf dupStore).map tenantLabel).Nodup) ∧
      (podsOf dupStore = [] → (listCmd sampleEnv dupStore).tab = [] ∧
        (listCmd sampleEnv dupStore).stdout = [Output.str "No tenant instances found.\n"]) ∧
      (podsOf dupStore ≠ [] →
        (listCmd sampleEnv dupStore).tab =
          "NAMESPACE\tAPI SERVER\tCONTROLLER MANAGER\tKUBECONFIG\n" ::
            dataRows (listCmd sampleEnv dupStore) ∧
        (listCmd sampleEnv dupStore).stdout = []) ∧
      (listCmd sampleEnv dupStore).panic = sampleEnv.Flush (listCmd sampleEnv dupStore).tab ∧
      (listCmd sampleEnv dupStore).world = dupStore) :=
  ⟨⟨rfl, rfl, rfl⟩, by decide,
    listCmd_one_row_per_pod sampleEnv apiServer sampleCfg dupStore dupStore (podsOf dupStore)
      rfl rfl rfl⟩

/-- A string that starts with the text `a` has prefix `p` when `a` has. -/
theorem hasPrefix_append_of (a rest p : String) (h : hasPrefix a p = true) :
    hasPrefix (a ++ rest) p = true := by
  unfold hasPrefix at h ⊢
  rw [List.isPrefixOf_iff_prefix] at h ⊢
  rw [String.data_append]
  exact h.trans (List.prefix_append _ _)

/-- A string that starts with the text `a` does not have prefix `p` when `a`
and `p` disagree on their common length. -/
theorem hasPrefix_append_false (a rest p : String)
    (h : (p.data.take a.data.length).isPrefixOf a.data = false) :
    hasPrefix (a ++ rest) p = false := by
  unfold hasPrefix
  rw [String.data_append]
  cases hp : p.data.isPrefixOf (a.data ++ rest.data) with
  | false => rfl
  | true =>
    rw [List.isPrefixOf_iff_prefix] at hp
    obtain ⟨t, ht⟩ := hp
    have hcut : p.data.take a.data.length ++ t.take (a.data.length - p.data.length) = a.data := by
      rw [← List.take_append_eq_append_take, ht, List.take_left]
    have hpre : (p.data.take a.data.length).isPrefixOf a.data = true := by
      rw [List.isPrefixOf_iff_prefix]
      exact ⟨_, hcut⟩
    rw [hpre] at h
    cases h

/-- A valid TCP port is unchanged by the conversion to `int32`. -/
theorem toInt32_port (securePort : Int) (h0 : 0 ≤ securePort) (h1 : securePort ≤ 65535) :
    toInt32 securePort = securePort := by
  unfold toInt32
  norm_num
  omega

/-- C8: for a secure port in `[0, 65535]`, in the pod of `NewAPIServer` and in
the pod of `NewControllerManager` there is a single container, the port of its
liveness probe's HTTP get is the secure port, and its command has exactly one
argument starting with `--secure-port=`, namely that flag followed by the
decimal rendering of the secure port. -/
theorem probe_port_matches_secure_port (identifier namespace_ : String) (securePort : Int)
    (h0 : 0 ≤ securePort) (h1 : securePort ≤ 65535) :
    ∀ pod ∈ [NewAPIServer identifier namespace_ securePort,
        NewControllerManager identifier namespace_ securePort],
      ∃ c probe get, pod.Spec.Containers = [c] ∧ c.LivenessProbe = some probe ∧
        probe.Handler.HTTPGet = some get ∧
        get.Port = { Type_ := IntStrType.Int, IntVal := securePort } ∧
        c.Command.filter (fun a => hasPrefix a "--secure-port=") =
          ["--secure-port=" ++ toString securePort] := by
  have hport : intstr_FromInt securePort = { Type_ := IntStrType.Int, IntVal := securePort } := by
    unfold intstr_FromInt
    rw [toInt32_port securePort h0 h1]
  have hflag : hasPrefix ("--secure-port=" ++ fmtInt securePort) "--secure-port=" = true :=
    hasPrefix_append_of _ _ _ (by decide)
  have hetcd : hasPrefix ("--etcd-prefix=/tenant-" ++ identifier ++ "/") "--secure-port=" =
      false := by
    rw [String.append_assoc]
    exact hasPrefix_append_false _ _ _ (by decide)
  have harg : fmtInt securePort = toString securePort := rfl
  intro pod hpod
  simp only [List.mem_cons, List.mem_singleton, List.not_mem_nil, or_false] at hpod
  rcases hpod with rfl | rfl
  · refine ⟨_, _, _, rfl, rfl, rfl, hport, ?_⟩
    simp +decide [NewAPIServer, List.filter_cons, hflag, hetcd]
    rw [harg]
  · refine ⟨_, _, _, rfl, rfl, rfl, hport, ?_⟩
    simp +decide [NewControllerManager, List.filter_cons, hflag]
    rw [harg]

/-- C8, at a sample input: port `7006`. -/
theorem probe_port_matches_secure_port_witness :
    ((0 : Int) ≤ 7006 ∧ (7006 : Int) ≤ 65535) ∧
    ∀ pod ∈ [NewAPIServer "5" "kube-tenant-5" 7006, NewControllerManager "5" "kube-tenant-5" 7006],
      ∃ c probe get, pod.Spec.Containers = [c] ∧ c.LivenessProbe = some probe ∧
        probe.Handler.HTTPGet = some get ∧
        get.Port = { Type_ := IntStrType.Int, IntVal := 7006 } ∧
        c.Command.filter (fun a => hasPrefix a "--secure-port=") =
          ["--secure-port=" ++ toString (7006 : Int)] :=
  ⟨⟨by decide, by decide⟩,
    probe_port_matches_secure_port "5" "kube-tenant-5" 7006 (by decide) (by decide)⟩

/-- C9: on the reference cluster, when the pods of the cluster are the two pods
of one create run with identifier `id`, possibly next to pods that do not
carry the tenant label, the label query of `listCmd` returns the API-server
pod alone (the controller-manager pod does not match it), and `listCmd` writes
the header and exactly one data row, whose four columns are the tenant
namespace, the name of the API-server pod, the name of the controller-manager
pod and the name of the secret built for `id`. -/
theorem listCmd_agrees_with_create (env : Env (List Object)) (cfg : RestConfig)
    (store : List Object) (others : List Pod) (Write : Config → Except Error Bytes)
    (cfg1 : RestConfig) (host id : String) (p q port : Int) (s : Secret)
    (hcfg : env.GetConfig = .ok cfg) (hnew : env.New cfg = .ok apiServer)
    (hpods : (podsOf store).Perm
      (NewAPIServer id ("kube-tenant-" ++ id) p ::
        NewControllerManager id ("kube-tenant-" ++ id) q :: others))
    (hothers : ∀ x ∈ others, x.Labels.lookup "kindred.crds.dev/tenant-api-server" = none)
    (hs : secretForTenantKubeConfig Write cfg1 host id ("kube-tenant-" ++ id) port = .ok s) :
    apiServer.ListPods ["kindred.crds.dev/tenant-api-server"] store =
        (.ok [NewAPIServer id ("kube-tenant-" ++ id) p], store) ∧
      hasLabels ["kindred.crds.dev/tenant-api-server"]
        (NewControllerManager id ("kube-tenant-" ++ id) q).toObjectMeta = false ∧
      dataRows (listCmd env store) =
        [("kube-tenant-" ++ id) ++ "\t" ++ (NewAPIServer id ("kube-tenant-" ++ id) p).Name ++ "\t" ++
          (NewControllerManager id ("kube-tenant-" ++ id) q).Name ++ "\t" ++ s.Name ++ "\n"] ∧
      (listCmd env store).tab = listCmd.header :: dataRows (listCmd env store) := by
  obtain ⟨hn, -, -, -, -⟩ := secret_name_of_ok Write cfg1 host id _ port s hs
  have hapi : hasLabels ["kindred.crds.dev/tenant-api-server"]
      (NewAPIServer id ("kube-tenant-" ++ id) p).toObjectMeta = true := by
    simp [hasLabels, NewAPIServer, List.lookup]
  have hcm : hasLabels ["kindred.crds.dev/tenant-api-server"]
      (NewControllerManager id ("kube-tenant-" ++ id) q).toObjectMeta = false := by
    simp +decide [hasLabels, NewControllerManager, List.lookup]
  have hrest : others.filter (fun x => hasLabels ["kindred.crds.dev/tenant-api-server"]
      x.toObjectMeta) = [] := by
    rw [List.filter_eq_nil_iff]
    intro x hx
    simp [hasLabels, hothers x hx]
  have hfilter : (podsOf store).filter (fun x => hasLabels ["kindred.crds.dev/tenant-api-server"]
      x.toObjectMeta) = [NewAPIServer id ("kube-tenant-" ++ id) p] := by
    have hperm := hpods.filter (fun x => hasLabels ["kindred.crds.dev/tenant-api-server"]
      x.toObjectMeta)
    rw [List.filter_cons_of_pos (by simpa using hapi),
      List.filter_cons_of_neg (by simpa using hcm), hrest] at hperm
    exact List.perm_singleton.mp hperm
  have hlist : apiServer.ListPods ["kindred.crds.dev/tenant-api-server"] store =
      (.ok [NewAPIServer id ("kube-tenant-" ++ id) p], store) := by
    simp only [apiServer, hfilter]
  have hrow : listCmd.row (NewAPIServer id ("kube-tenant-" ++ id) p) =
      ("kube-tenant-" ++ id) ++ "\t" ++ (NewAPIServer id ("kube-tenant-" ++ id) p).Name ++ "\t" ++
        (NewControllerManager id ("kube-tenant-" ++ id) q).Name ++ "\t" ++ s.Name ++ "\n" := by
    have hid : mapGet (NewAPIServer id ("kube-tenant-" ++ id) p).Labels
        "kindred.crds.dev/tenant-api-server" = id := by
      simp [mapGet, NewAPIServer, List.lookup]
    have e1 : "tenant-kube-controller-manager" ++ "-" ++ id =
        (NewControllerManager id ("kube-tenant-" ++ id) q).Name := by
      show _ = "tenant-kube-controller-manager-" ++ id
      rw [String.append_assoc]; rfl
    have e2 : "tenant-kubeconfig" ++ "-" ++ id = s.Name := by
      rw [hn, String.append_assoc]; rfl
    unfold listCmd.row
    simp only [hid, e1, e2]
    rfl
  have hrows : dataRows (listCmd env store) =
      [listCmd.row (NewAPIServer id ("kube-tenant-" ++ id) p)] := by
    simp [dataRows, listCmd, hcfg, hnew, hlist]
  refine ⟨hlist, hcm, ?_, ?_⟩
  · rw [hrows, hrow]
  · rw [hrows]
    simp [listCmd, hcfg, hnew, hlist]

/-- C9, at a sample input: after `createCmd` has run on a fresh kind cluster,
`listCmd` shows one row for the tenant with identifier `5`. -/
theorem listCmd_agrees_with_create_witness :
    (sampleEnv.GetConfig = .ok sampleCfg ∧ sampleEnv.New sampleCfg = .ok apiServer ∧
      (podsOf tenantStore).Perm
        (NewAPIServer "5" ("kube-tenant-" ++ "5") 7006 ::
          NewControllerManager "5" ("kube-tenant-" ++ "5") 11007 ::
          [kindControlPlanePod "10.0.0.1"]) ∧
      (∀ x ∈ [kindControlPlanePod "10.0.0.1"],
        x.Labels.lookup "kindred.crds.dev/tenant-api-server" = none) ∧
      secretForTenantKubeConfig sampleWrite sampleCfg "10.0.0.1" "5" ("kube-tenant-" ++ "5")
        7006 = .ok sampleSecret ∧
      (createCmd sampleEnv sampleStore).world.Perm tenantStore) ∧
    (apiServer.ListPods ["kindred.crds.dev/tenant-api-server"] tenantStore =
        (.ok [NewAPIServer "5" ("kube-tenant-" ++ "5") 7006], tenantStore) ∧
      hasLabels ["kindred.crds.dev/tenant-api-server"]
        (NewControllerManager "5" ("kube-tenant-" ++ "5") 11007).toObjectMeta = false ∧
      dataRows (listCmd sampleEnv tenantStore) =
        [("kube-tenant-" ++ "5") ++ "\t" ++
          (NewAPIServer "5" ("kube-tenant-" ++ "5") 7006).Name ++ "\t" ++
          (NewControllerManager "5" ("kube-tenant-" ++ "5") 11007).Name ++ "\t" ++
          sampleSecret.Name ++ "\n"] ∧
      (listCmd sampleEnv tenantStore).tab =
        listCmd.header :: dataRows (listCmd sampleEnv tenantStore)) :=
  ⟨⟨rfl, rfl, by decide, by decide, rfl, by decide⟩,
    listCmd_agrees_with_create sampleEnv sampleCfg tenantStore [kindControlPlanePod "10.0.0.1"]
      sampleWrite sampleCfg "10.0.0.1" "5" 7006 11007 7006 sampleSecret rfl rfl (by decide)
      (by decide) rfl⟩

/-- C10: the pod of `NewControllerManager` has a single container and a single
volume named `kubeconfig`; that volume is the secret whose name is the name of
the secret built by `secretForTenantKubeConfig` for the same identifier; its
only item maps the key `kubeconfig`, which is a key of that secret's data, to
the path `tenant-controller-manager.conf`; the single mount of the volume is
at `/etc/kubernetes`; and for each of the flags `--kubeconfig`,
`--authentication-kubeconfig` and `--authorization-kubeconfig` the command
has exactly one argument, whose value is the mount path, a slash and the item
path. -/
theorem controllerManager_reads_stored_kubeconfig (Write : Config → Except Error Bytes)
    (cfg : RestConfig) (host id ns : String) (p port : Int) (s : Secret)
    (hs : secretForTenantKubeConfig Write cfg host id ns port = .ok s) :
    ∃ c vol src item mount,
      (NewControllerManager id ns p).Spec.Containers = [c] ∧
      (NewControllerManager id ns p).Spec.Volumes.filter (fun v => v.Name == "kubeconfig") =
        [vol] ∧
      vol.VolumeSource.Secret = some src ∧ src.SecretName = s.Name ∧
      src.Items = [item] ∧ item.Key = "kubeconfig" ∧ (s.Data.lookup item.Key).isSome = true ∧
      c.VolumeMounts.filter (fun m => m.Name == "kubeconfig") = [mount] ∧
      mount.MountPath ++ "/" ++ item.Path =
        "/etc/kubernetes" ++ "/" ++ "tenant-controller-manager.conf" ∧
      ∀ flag ∈ ["--kubeconfig", "--authentication-kubeconfig", "--authorization-kubeconfig"],
        c.Command.filter (fun a => hasPrefix a (flag ++ "=")) =
          [flag ++ "=" ++ (mount.MountPath ++ "/" ++ item.Path)] := by
  obtain ⟨hn, -, -, hd, -⟩ := secret_name_of_ok Write cfg host id ns port s hs
  have hname : "tenant-kubeconfig" ++ "-" ++ id = s.Name := by
    rw [hn, String.append_assoc]; rfl
  have hk : hasPrefix ("--secure-port=" ++ fmtInt p) "--kubeconfig=" = false :=
    hasPrefix_append_false _ _ _ (by decide)
  have hk1 : hasPrefix ("--secure-port=" ++ fmtInt p) "--authentication-kubeconfig=" = false :=
    hasPrefix_append_false _ _ _ (by decide)
  have hk2 : hasPrefix ("--secure-port=" ++ fmtInt p) "--authorization-kubeconfig=" = false :=
    hasPrefix_append_false _ _ _ (by decide)
  refine ⟨_,
    { Name := "kubeconfig"
      VolumeSource :=
        { Secret := some
            { SecretName := "tenant-kubeconfig" ++ "-" ++ id
              Items := [{ Key := "kubeconfig", Path := "tenant-controller-manager.conf" }] } } },
    { SecretName := "tenant-kubeconfig" ++ "-" ++ id
      Items := [{ Key := "kubeconfig", Path := "tenant-controller-manager.conf" }] },
    { Key := "kubeconfig", Path := "tenant-controller-manager.conf" },
    { MountPath := "/etc/kubernetes", Name := "kubeconfig", ReadOnly := true },
    rfl, ?_, rfl, hname, rfl, rfl, ?_, ?_, ?_, ?_⟩
  · simp +decide [NewControllerManager, List.filter_cons, hostPathVolume]
  · rw [hd]
    simp [List.lookup]
  · simp +decide [List.filter_cons]
  · decide
  · intro flag hflag
    simp only [List.mem_cons, List.mem_singleton, List.not_mem_nil, or_false] at hflag
    rcases hflag with rfl | rfl | rfl
    · simp +decide [List.filter_cons, hk]
    · simp +decide [List.filter_cons, hk1]
    · simp +decide [List.filter_cons, hk2]

/-- C10, at a sample input: the controller manager of the tenant with
identifier `5` and the secret stored for it. -/
theorem controllerManager_reads_stored_kubeconfig_witness :
    secretForTenantKubeConfig sampleWrite sampleCfg "10.0.0.1" "5" "kube-tenant-5" 7006 =
      .ok sampleSecret ∧
    ∃ c vol src item mount,
      (NewControllerManager "5" "kube-tenant-5" 11007).Spec.Containers = [c] ∧
      (NewControllerManager "5" "kube-tenant-5" 11007).Spec.Volumes.filter
        (fun v => v.Name == "kubeconfig") = [vol] ∧
      vol.VolumeSource.Secret = some src ∧ src.SecretName = sampleSecret.Name ∧
      src.Items = [item] ∧ item.Key = "kubeconfig" ∧
      (sampleSecret.Data.lookup item.Key).isSome = true ∧
      c.VolumeMounts.filter (fun m => m.Name == "kubeconfig") = [mount] ∧
      mount.MountPath ++ "/" ++ item.Path =
        "/etc/kubernetes" ++ "/" ++ "tenant-controller-manager.conf" ∧
      ∀ flag ∈ ["--kubeconfig", "--authentication-kubeconfig", "--authorization-kubeconfig"],
        c.Command.filter (fun a => hasPrefix a (flag ++ "=")) =
          [flag ++ "=" ++ (mount.MountPath ++ "/" ++ item.Path)] :=
  ⟨rfl, controllerManager_reads_stored_kubeconfig sampleWrite sampleCfg "10.0.0.1" "5"
    "kube-tenant-5" 11007 7006 sampleSecret rfl⟩

/-- A decimal digit character is not a slash. -/
theorem digitChar_ne_slash : ∀ d, d < 10 → Nat.digitChar d ≠ '/' := by
  decide

/-- The digits produced in base ten contain no slash when the accumulator
holds none. -/
theorem toDigitsCore_no_slash (fuel : Nat) :
    ∀ (n : Nat) (ds : List Char), '/' ∉ ds → '/' ∉ Nat.toDigitsCore 10 fuel n ds := by
  induction fuel with
  | zero =>
    intro n ds hds
    simpa [Nat.toDigitsCore] using hds
  | succ fuel ih =>
    intro n ds hds
    have hd : '/' ∉ Nat.digitChar (n % 10) :: ds := by
      intro hmem
      rcases List.mem_cons.mp hmem with h | h
      · exact digitChar_ne_slash (n % 10) (Nat.mod_lt _ (by decide)) h.symm
      · exact hds h
    simp only [Nat.toDigitsCore]
    split
    · exact hd
    · exact ih _ _ hd

/-- The decimal rendering of a natural number contains no slash. -/
theorem decimal_no_slash (n : Nat) : '/' ∉ (toString n).data := by
  show '/' ∉ Nat.toDigitsCore 10 (n + 1) n []
  exact toDigitsCore_no_slash _ _ _ (List.not_mem_nil _)

/-- Two different texts, each closed by a slash, the second slash-free: the
first is not a prefix of the second. -/
theorem closed_not_prefix (a b : List Char) (hb : '/' ∉ b) (hab : a ≠ b) :
    ¬ List.IsPrefix (a ++ ['/']) (b ++ ['/']) := by
  rintro ⟨t, ht⟩
  rw [List.append_assoc] at ht
  rcases List.append_eq_append_iff.mp ht with ⟨x, hx, hx2⟩ | ⟨y, hy, hy2⟩
  · cases x with
    | nil => exact hab (by simpa using hx.symm)
    | cons c x =>
      simp only [List.cons_append, List.singleton_append, List.cons.injEq] at hx2
      apply hb
      rw [hx, ← hx2.1]
      simp
  · cases y with
    | nil => exact hab (by simpa using hy)
    | cons c y =>
      have hlen := congrArg List.length hy2
      simp at hlen

/-- The key space `/tenant-` + `a` + `/` is not a prefix of the key space of a
different identifier `b` that is slash-free. -/
theorem etcd_prefix_not_prefix (a b : String) (hb : '/' ∉ b.data)
    (hab : a ≠ b) : hasPrefix ("/tenant-" ++ b ++ "/") ("/tenant-" ++ a ++ "/") = false := by
  cases h : hasPrefix ("/tenant-" ++ b ++ "/") ("/tenant-" ++ a ++ "/") with
  | false => rfl
  | true =>
    exfalso
    unfold hasPrefix at h
    rw [List.isPrefixOf_iff_prefix] at h
    simp only [String.data_append, List.append_assoc, List.prefix_append_right_inj] at h
    have hne : a.data ≠ b.data := fun hd => hab (String.ext hd)
    exact closed_not_prefix a.data b.data hb hne h

/-- C11: for two different identifiers that are decimal renderings of natural
numbers, the single `--etcd-prefix=` argument of each `NewAPIServer` pod has
the value `/tenant-` + identifier + `/`, the two values are different, and
neither is a prefix of the other. -/
theorem etcd_prefixes_do_not_overlap (a b nsA nsB : String) (pA pB : Int)
    (ha : ∃ m : Nat, a = toString m) (hb : ∃ n : Nat, b = toString n) (hab : a ≠ b) :
    (∃ ca cb, (NewAPIServer a nsA pA).Spec.Containers = [ca] ∧
      (NewAPIServer b nsB pB).Spec.Containers = [cb] ∧
      ca.Command.filter (fun x => hasPrefix x "--etcd-prefix=") =
        ["--etcd-prefix=" ++ ("/tenant-" ++ a ++ "/")] ∧
      cb.Command.filter (fun x => hasPrefix x "--etcd-prefix=") =
        ["--etcd-prefix=" ++ ("/tenant-" ++ b ++ "/")]) ∧
    "/tenant-" ++ a ++ "/" ≠ "/tenant-" ++ b ++ "/" ∧
    hasPrefix ("/tenant-" ++ b ++ "/") ("/tenant-" ++ a ++ "/") = false ∧
    hasPrefix ("/tenant-" ++ a ++ "/") ("/tenant-" ++ b ++ "/") = false := by
  obtain ⟨m, rfl⟩ := ha
  obtain ⟨n, rfl⟩ := hb
  have hab1 := etcd_prefix_not_prefix _ _ (decimal_no_slash n) hab
  have hab2 := etcd_prefix_not_prefix _ _ (decimal_no_slash m) (fun h => hab h.symm)
  have hcmd : ∀ (id ns : String) (p : Int),
      ∃ c, (NewAPIServer id ns p).Spec.Containers = [c] ∧
        c.Command.filter (fun x => hasPrefix x "--etcd-prefix=") =
          ["--etcd-prefix=" ++ ("/tenant-" ++ id ++ "/")] := by
    intro id ns p
    have hflag : hasPrefix ("--secure-port=" ++ fmtInt p) "--etcd-prefix=" = false :=
      hasPrefix_append_false _ _ _ (by decide)
    have hetcd : hasPrefix ("--etcd-prefix=/tenant-" ++ id ++ "/") "--etcd-prefix=" = true := by
      rw [String.append_assoc]
      exact hasPrefix_append_of _ _ _ (by decide)
    have harg : "--etcd-prefix=/tenant-" ++ id ++ "/" =
        "--etcd-prefix=" ++ ("/tenant-" ++ id ++ "/") := by
      rw [String.append_assoc, String.append_assoc]
      rw [← String.append_assoc "--etcd-prefix=" "/tenant-"]
      rfl
    refine ⟨_, rfl, ?_⟩
    simp +decide [List.filter_cons, hflag, hetcd]
    rw [harg, String.append_assoc]
  obtain ⟨ca, hca, hfa⟩ := hcmd (toString m) nsA pA
  obtain ⟨cb, hcb, hfb⟩ := hcmd (toString n) nsB pB
  refine ⟨⟨ca, cb, hca, hcb, hfa, hfb⟩, ?_, hab1, hab2⟩
  intro heq
  rw [heq] at hab1
  have hself : hasPrefix ("/tenant-" ++ toString n ++ "/") ("/tenant-" ++ toString n ++ "/") =
      true := by
    unfold hasPrefix
    rw [List.isPrefixOf_iff_prefix]
  rw [hself] at hab1
  cases hab1

/-- C11, at a sample input: the identifier `5` that `createCmd` draws from the
sample random source and the identifier `50`, one a prefix of the other as
texts, have key spaces that do not overlap. -/
theorem etcd_prefixes_do_not_overlap_witness :
    ((∃ m : Nat, createCmd.identifier sampleIntn = toString m) ∧
      (∃ n : Nat, "50" = toString n) ∧ createCmd.identifier sampleIntn ≠ "50" ∧
      hasPrefix "50" (createCmd.identifier sampleIntn) = true) ∧
    ((∃ ca cb,
        (NewAPIServer (createCmd.identifier sampleIntn) "kube-tenant-5" 7006).Spec.Containers =
          [ca] ∧
        (NewAPIServer "50" "kube-tenant-50" 7007).Spec.Containers = [cb] ∧
        ca.Command.filter (fun x => hasPrefix x "--etcd-prefix=") =
          ["--etcd-prefix=" ++ ("/tenant-" ++ createCmd.identifier sampleIntn ++ "/")] ∧
        cb.Command.filter (fun x => hasPrefix x "--etcd-prefix=") =
          ["--etcd-prefix=" ++ ("/tenant-" ++ "50" ++ "/")]) ∧
      "/tenant-" ++ createCmd.identifier sampleIntn ++ "/" ≠ "/tenant-" ++ "50" ++ "/" ∧
      hasPrefix ("/tenant-" ++ "50" ++ "/")
        ("/tenant-" ++ createCmd.identifier sampleIntn ++ "/") = false ∧
      hasPrefix ("/tenant-" ++ createCmd.identifier sampleIntn ++ "/")
        ("/tenant-" ++ "50" ++ "/") = false) :=
  ⟨⟨⟨5, rfl⟩, ⟨50, rfl⟩, by decide, by decide⟩,
    etcd_prefixes_do_not_overlap (createCmd.identifier sampleIntn) "50" "kube-tenant-5"
      "kube-tenant-50" 7006 7007 ⟨5, rfl⟩ ⟨50, rfl⟩ (by decide)⟩

end Kindred
